import Mathlib

/-!
# Verification of the Tōrō server/client simulation core

Shallow embedding of the authoritative game server (`server/src/index.ts`,
final room-based version), the client prediction module
(`client/src/network/ClientPrediction.ts`) and the snapshot interpolation
module (`client/src/network/SnapshotInterpolation.ts`).

JavaScript numbers are modelled as rationals (`ℚ`).  The transcendental
library functions (`Math.sqrt`, `Math.atan2`, `Math.cos`, `Math.sin`) are
modelled as an explicit oracle structure: both the client and the server
call the very same JS functions, so theorems quantify over the oracle, and
concrete evaluations use a computable oracle that is exact on the inputs
actually used (perfect squares, zero, …).  `Math.random()` is modelled as an
explicit stream of rationals, `Date.now()` as an explicit parameter.
-/

set_option linter.unusedVariables false
set_option maxRecDepth 4000

namespace Toro

/-- The JS `Math` functions used by the movement / collision code.
`Math.sqrt`, `Math.atan2`, `Math.cos`, `Math.sin` are shared verbatim
between the client and the server bundles. -/
structure JsMath where
  sqrt : ℚ → ℚ
  atan2 : ℚ → ℚ → ℚ
  cos : ℚ → ℚ
  sin : ℚ → ℚ

/-- Square root by table, exact at every point the concrete states below
query it (each entry is a perfect square: `10² = 100`, `29² = 841`,
`30² = 900`, `60² = 3600`, `1000² = 1000000`, `(3/10)² = 9/100`): any
faithful model of `Math.sqrt` agrees with it at those points.  Elsewhere it
is `0` and is never relied upon. -/
def qSqrt (q : ℚ) : ℚ :=
  if q = 0 then 0
  else if q = 100 then 10
  else if q = 841 then 29
  else if q = 900 then 30
  else if q = 3600 then 60
  else if q = 1000000 then 1000
  else if q = 9 / 100 then 3 / 10
  else if q = 16900 then 130
  else 0

/-- A computable stand-in for the JS `Math` functions, used only to
instantiate concrete witnesses and counterexamples: `sqrt` is exact on
every value it is queried at; `cos`/`sin`/`atan2` return fixed exact values
(the concrete states below only ever multiply them by zero or feed them to
positions whose exact value is irrelevant to the property checked). -/
def qMath : JsMath where
  sqrt := qSqrt
  atan2 _ _ := 0
  cos _ := 1
  sin _ := 0

/-- The double `Math.PI`, as the exact rational value of the IEEE-754
constant. -/
def MATH_PI : ℚ := 884279719003555 / 281474976710656

theorem MATH_PI_pos : 0 < MATH_PI := by norm_num [MATH_PI]

/-- First `while` of `wrapAngle`: `while (angle > Math.PI) angle -= Math.PI * 2`. -/
def wrapDown (a : ℚ) : ℚ :=
  if h : MATH_PI < a then wrapDown (a - MATH_PI * 2) else a
termination_by (⌈(a - MATH_PI) / (MATH_PI * 2)⌉₊)
decreasing_by
  have hpi := MATH_PI_pos
  have h2 : (0:ℚ) < MATH_PI * 2 := by linarith
  set x : ℚ := (a - MATH_PI) / (MATH_PI * 2) with hx
  have hxpos : 0 < x := div_pos (by linarith) h2
  have hure : (a - MATH_PI * 2 - MATH_PI) / (MATH_PI * 2) = x - 1 := by
    field_simp [hx]
    ring
  rw [hure]
  have hone : 1 ≤ ⌈x⌉₊ := by
    rw [Nat.one_le_iff_ne_zero]
    intro hz
    have := Nat.ceil_eq_zero.mp hz
    linarith
  have hle : ⌈x - 1⌉₊ ≤ ⌈x⌉₊ - 1 := by
    rw [Nat.ceil_le]
    have hc : (⌈x⌉₊ : ℚ) - 1 = ((⌈x⌉₊ - 1 : ℕ) : ℚ) := by
      have := Nat.cast_sub (R := ℚ) hone
      rw [this]
      norm_num
    rw [← hc]
    have := Nat.le_ceil x
    linarith
  omega

/-- Second `while` of `wrapAngle`: `while (angle < -Math.PI) angle += Math.PI * 2`. -/
def wrapUp (a : ℚ) : ℚ :=
  if h : a < -MATH_PI then wrapUp (a + MATH_PI * 2) else a
termination_by (⌈(-a - MATH_PI) / (MATH_PI * 2)⌉₊)
decreasing_by
  have hpi := MATH_PI_pos
  have h2 : (0:ℚ) < MATH_PI * 2 := by linarith
  set x : ℚ := (-a - MATH_PI) / (MATH_PI * 2) with hx
  have hxpos : 0 < x := div_pos (by linarith) h2
  have hure : (-(a + MATH_PI * 2) - MATH_PI) / (MATH_PI * 2) = x - 1 := by
    field_simp [hx]
    ring
  rw [hure]
  have hone : 1 ≤ ⌈x⌉₊ := by
    rw [Nat.one_le_iff_ne_zero]
    intro hz
    have := Nat.ceil_eq_zero.mp hz
    linarith
  have hle : ⌈x - 1⌉₊ ≤ ⌈x⌉₊ - 1 := by
    rw [Nat.ceil_le]
    have hc : (⌈x⌉₊ : ℚ) - 1 = ((⌈x⌉₊ - 1 : ℕ) : ℚ) := by
      have := Nat.cast_sub (R := ℚ) hone
      rw [this]
      norm_num
    rw [← hc]
    have := Nat.le_ceil x
    linarith
  omega

/-- `wrapAngle` (identical in server `index.ts` and `ClientPrediction.ts`):
two sequential `while` loops folding an angle into `[-π, π]`. -/
def wrapAngle (a : ℚ) : ℚ := wrapUp (wrapDown a)

/-- `clamp(value, min, max) = Math.max(min, Math.min(max, value))`
(identical on server and client). -/
def clamp (value lo hi : ℚ) : ℚ := max lo (min hi value)

/-! ## Shared configuration constants -/

/-- Server `PLAYER_CONFIG` (final version of `server/src/index.ts`). -/
structure PlayerConfig where
  RADIUS : ℚ
  BASE_SPEED : ℚ
  TURN_SPEED : ℚ
  BOOST_MULTIPLIER : ℚ

def PLAYER_CONFIG : PlayerConfig :=
  { RADIUS := 20, BASE_SPEED := 200, TURN_SPEED := 4, BOOST_MULTIPLIER := 1.5 }

/-- Server world size (final version): `WORLD_WIDTH = WORLD_HEIGHT = 6000`. -/
def WORLD_WIDTH : ℚ := 6000
def WORLD_HEIGHT : ℚ := 6000

/-- Client `GAME_CONFIG.PLAYER` (`client/src/config.ts`) — numerically equal
to the server's `PLAYER_CONFIG`, but a distinct definition in the source. -/
def CLIENT_PLAYER_CONFIG : PlayerConfig :=
  { RADIUS := 20, BASE_SPEED := 200, TURN_SPEED := 4, BOOST_MULTIPLIER := 1.5 }

/-- Client `GAME_CONFIG.WORLD_WIDTH/HEIGHT` (`client/src/config.ts`): 2000. -/
def CLIENT_WORLD_WIDTH : ℚ := 2000
def CLIENT_WORLD_HEIGHT : ℚ := 2000

/-- Client `GAME_CONFIG.NETWORK` constants used by prediction/interpolation. -/
def SERVER_TICK_RATE : ℚ := 20
def INTERPOLATION_DELAY : ℚ := 100
def SNAPSHOT_BUFFER_SIZE : ℕ := 30
def INPUT_BUFFER_SIZE : ℕ := 60
def MAX_POSITION_ERROR : ℚ := 50
def RECONCILIATION_SMOOTHING : ℚ := 0.1

/-- Server `TICK_RATE` (final version): 20 Hz. -/
def TICK_RATE : ℚ := 20

/-- `GAME_CONSTANTS` from `shared/types.ts` (the version with combat
constants, `src/unnamed/part_001`).  Kept as a structure so that the
configurable head-to-head policy flag can be instantiated both ways. -/
structure GameConstants where
  FIRST_SEGMENT_GAP : ℚ
  BODY_SEGMENT_SPACING : ℚ
  POSITION_HISTORY_RESOLUTION : ℚ
  FOOD_MAGNET_RADIUS : ℚ
  FOOD_MAGNET_STRENGTH : ℚ
  FOOD_BASE_VALUE : ℚ
  FOOD_RADIUS : ℚ
  GROWTH_PER_FOOD : ℚ
  BOOST_DROP_RATE : ℚ
  MIN_BODY_LENGTH : ℚ
  STARTING_BODY_LENGTH : ℚ
  MAX_FOOD_COUNT : ℕ
  FOOD_SPAWN_RATE : ℕ
  DROPPED_PELLET_VALUE : ℚ
  DEATH_DROP_VALUE : ℚ
  BODY_SEGMENT_HITBOX : ℚ
  RESPAWN_DELAY : ℚ
  HEAD_COLLISION_BOTH_DIE : Bool
  SCOREBOARD_SIZE : ℕ

/-- The concrete values of `GAME_CONSTANTS` in `src/unnamed/part_001`. -/
def GAME_CONSTANTS : GameConstants where
  FIRST_SEGMENT_GAP := 35
  BODY_SEGMENT_SPACING := 22
  POSITION_HISTORY_RESOLUTION := 2
  FOOD_MAGNET_RADIUS := 100
  FOOD_MAGNET_STRENGTH := 150
  FOOD_BASE_VALUE := 1
  FOOD_RADIUS := 8
  GROWTH_PER_FOOD := 1
  BOOST_DROP_RATE := 2
  MIN_BODY_LENGTH := 0
  STARTING_BODY_LENGTH := 3
  MAX_FOOD_COUNT := 100
  FOOD_SPAWN_RATE := 1
  DROPPED_PELLET_VALUE := 1
  DEATH_DROP_VALUE := 2
  BODY_SEGMENT_HITBOX := 10
  RESPAWN_DELAY := 2000
  HEAD_COLLISION_BOTH_DIE := false
  SCOREBOARD_SIZE := 5

/-! ## Data model (server side) -/

/-- `PlayerInput` (`shared/types.ts`). -/
structure PlayerInputM where
  sequence : ℕ
  mouseX : ℚ
  mouseY : ℚ
  boosting : Bool
  timestamp : ℚ
deriving DecidableEq, Repr

/-- One body segment (derived, `{x, y}`). -/
structure BodySegmentM where
  x : ℚ
  y : ℚ
deriving DecidableEq, Repr

/-- `PositionRecord`: one trail sample `(x, y, timestamp)`. -/
structure PositionRecord where
  x : ℚ
  y : ℚ
  timestamp : ℚ
deriving DecidableEq, Repr

/-- A food pellet (`Hitodama`). -/
structure Hitodama where
  id : String
  x : ℚ
  y : ℚ
  value : ℚ
  radius : ℚ
deriving DecidableEq, Repr

/-- `ServerPlayerState` (final version): public `PlayerState` fields plus
the server-only fields.  The socket handle is connection plumbing and
carries no simulation state. -/
structure ServerPlayerState where
  id : String
  name : String
  x : ℚ
  y : ℚ
  angle : ℚ
  speed : ℚ
  score : ℚ
  bodySegments : List BodySegmentM
  targetLength : ℚ
  roomId : String
  lastProcessedInput : ℕ
  alive : Bool
  kills : ℕ
  input : PlayerInputM
  currentAngle : ℚ
  targetAngle : ℚ
  currentSpeed : ℚ
  positionHistory : List PositionRecord
  boostDropAccumulator : ℚ
  respawnTime : ℚ
  hasJoined : Bool
deriving DecidableEq, Repr

/-- `DeathCause` (`shared/types.ts`). -/
inductive DeathCause where
  | head_collision
  | head_to_head
  | world_border
  | disconnect
deriving DecidableEq, Repr

/-- `DeathEvent` (`shared/types.ts`). -/
structure DeathEvent where
  playerId : String
  cause : DeathCause
  killerId : Option String
  killerName : Option String
  x : ℚ
  y : ℚ
  score : ℚ
  foodDropped : ℕ
deriving DecidableEq, Repr

/-- The room-scoped socket emissions the modelled tick performs. -/
inductive GameEvent where
  | foodCollected (foodId : String) (playerId : String)
  | playerDied (event : DeathEvent)
  | playerRespawned (playerId : String)
deriving DecidableEq, Repr

/-- `GameRoom` state: players and food keep the `Map` insertion order as a
list; `currentTick` and `foodIdCounter` are the room's counters. -/
structure GameRoom where
  id : String
  players : List ServerPlayerState
  food : List Hitodama
  currentTick : ℕ
  foodIdCounter : ℕ
deriving DecidableEq, Repr

/-- `GameRoom.getNextFoodId()`: returns `` `${id}-food-${counter++}` ``. -/
def GameRoom.getNextFoodId (room : GameRoom) : String × GameRoom :=
  (room.id ++ "-food-" ++ toString room.foodIdCounter,
   { room with foodIdCounter := room.foodIdCounter + 1 })

/-- Replace the player with the given id (JS objects in `room.players` are
mutated through aliases; functionally we rewrite the map entry). -/
def GameRoom.updatePlayer (room : GameRoom) (pid : String)
    (f : ServerPlayerState → ServerPlayerState) : GameRoom :=
  { room with players := room.players.map (fun p => if p.id = pid then f p else p) }

/-- Lookup `room.players.get(pid)`. -/
def GameRoom.getPlayer (room : GameRoom) (pid : String) : Option ServerPlayerState :=
  room.players.find? (fun p => p.id = pid)

/-- The `Math.random()` stream: values are popped front-to-back; an
exhausted stream keeps answering `1/2` (an arbitrary in-range value, used
only by concrete evaluations that do not depend on it). -/
def randNext : List ℚ → ℚ × List ℚ
  | [] => (1/2, [])
  | r :: rs => (r, rs)

/-! ## Server movement model: `updatePlayerMovement` (lines 2500–2549) -/

/-- `updatePlayerMovement(player, deltaS)` — the authoritative movement
model, final version of `server/src/index.ts`. -/
def updatePlayerMovement (M : JsMath) (gc : GameConstants)
    (player : ServerPlayerState) (deltaS : ℚ) : ServerPlayerState :=
  if player.alive = false then player else
  let input := player.input
  let dist := M.sqrt (input.mouseX * input.mouseX + input.mouseY * input.mouseY)
  let player :=
    if 0.05 < dist then
      let targetAngle := M.atan2 input.mouseY input.mouseX
      let angleDiff := wrapAngle (targetAngle - player.currentAngle)
      let turnAmount := PLAYER_CONFIG.TURN_SPEED * deltaS
      let currentAngle :=
        if |angleDiff| < turnAmount then targetAngle
        else if 0 < angleDiff then player.currentAngle + turnAmount
        else player.currentAngle - turnAmount
      let currentAngle := wrapAngle currentAngle
      let speedFactor := min dist 1
      let baseSpeed := PLAYER_CONFIG.BASE_SPEED * speedFactor
      let canBoost := input.boosting ∧ gc.MIN_BODY_LENGTH < player.targetLength
      let currentSpeed :=
        if canBoost then baseSpeed * PLAYER_CONFIG.BOOST_MULTIPLIER else baseSpeed
      { player with targetAngle := targetAngle, currentAngle := currentAngle,
                    currentSpeed := currentSpeed }
    else
      { player with currentSpeed := player.currentSpeed * 0.95 }
  let velocityX := M.cos player.currentAngle * player.currentSpeed
  let velocityY := M.sin player.currentAngle * player.currentSpeed
  let px := player.x + velocityX * deltaS
  let py := player.y + velocityY * deltaS
  let hardLimit := PLAYER_CONFIG.RADIUS * (-0.5)
  let px := clamp px hardLimit (WORLD_WIDTH - hardLimit)
  let py := clamp py hardLimit (WORLD_HEIGHT - hardLimit)
  { player with x := px, y := py, angle := player.currentAngle,
                speed := player.currentSpeed }

/-! ## Trail buffer and segment sampler -/

/-- Helper for the `while`-loop decreasing measures below. -/
theorem ceil_sub_one_lt {x : ℚ} (hx : 0 < x) : ⌈x - 1⌉₊ < ⌈x⌉₊ := by
  have hone : 1 ≤ ⌈x⌉₊ := by
    rw [Nat.one_le_iff_ne_zero]
    intro hz
    have := Nat.ceil_eq_zero.mp hz
    linarith
  have hle : ⌈x - 1⌉₊ ≤ ⌈x⌉₊ - 1 := by
    rw [Nat.ceil_le]
    have hc : (⌈x⌉₊ : ℚ) - 1 = ((⌈x⌉₊ - 1 : ℕ) : ℚ) := by
      rw [Nat.cast_sub (R := ℚ) hone]
      norm_num
    rw [← hc]
    have := Nat.le_ceil x
    linarith
  omega

/-- `while (history.length > maxHistoryLength) history.pop()` in
`updatePositionHistory`.  (On the empty list the JS loop could only spin
when `maxHistoryLength < 0`, which the caller never produces; we return the
empty list there.) -/
def trimHistory (maxHistoryLength : ℚ) : List PositionRecord → List PositionRecord
  | [] => []
  | p :: ps =>
    if maxHistoryLength < (((p :: ps).length : ℕ) : ℚ) then
      trimHistory maxHistoryLength (p :: ps).dropLast
    else p :: ps
termination_by l => l.length
decreasing_by simp [List.length_dropLast]

/-- `updatePositionHistory(player)` (lines 2233–2254): prepend the current
position, then trim the tail to the allowed sample count. -/
def updatePositionHistory (gc : GameConstants) (player : ServerPlayerState)
    (now : ℚ) : ServerPlayerState :=
  if player.alive = false then player else
  let history := (⟨player.x, player.y, now⟩ : PositionRecord) :: player.positionHistory
  let maxSegments := max player.targetLength ((player.bodySegments.length : ℕ) : ℚ) + 5
  let totalDistance := gc.FIRST_SEGMENT_GAP + (maxSegments - 1) * gc.BODY_SEGMENT_SPACING
  let maxHistoryLength := totalDistance * gc.POSITION_HISTORY_RESOLUTION
  { player with positionHistory := trimHistory maxHistoryLength history }

/-- The inner `while` of `calculateBodySegments`: emit segments while the
accumulated distance covers the (stale, per-interval) required spacing and
fewer than `currentLength` segments exist. -/
def calcInner (curr : PositionRecord) (dx dy segmentDistance requiredSpacing currentLength : ℚ)
    (distAcc : ℚ) (segIdx : ℕ) (acc : List BodySegmentM) : ℚ × ℕ × List BodySegmentM :=
  if h : requiredSpacing ≤ distAcc ∧ (segIdx : ℚ) < currentLength then
    let overshoot := distAcc - requiredSpacing
    let t := if 0 < segmentDistance then overshoot / segmentDistance else 0
    calcInner curr dx dy segmentDistance requiredSpacing currentLength
      (distAcc - requiredSpacing) (segIdx + 1)
      (acc ++ [⟨curr.x + dx * t, curr.y + dy * t⟩])
  else (distAcc, segIdx, acc)
termination_by ⌈currentLength⌉₊ - segIdx
decreasing_by
  have := Nat.lt_ceil.mpr h.2
  omega

/-- The outer `for` of `calculateBodySegments`: walk the history pairs
`(prev, curr)` while `segmentIndex < currentLength`. -/
def calcOuter (M : JsMath) (gc : GameConstants) (currentLength : ℚ) :
    List PositionRecord → PositionRecord → ℚ → ℕ → List BodySegmentM → List BodySegmentM
  | [], _, _, _, acc => acc
  | curr :: rest, prev, distAcc, segIdx, acc =>
    if (segIdx : ℚ) < currentLength then
      let dx := prev.x - curr.x
      let dy := prev.y - curr.y
      let segmentDistance := M.sqrt (dx * dx + dy * dy)
      let distAcc := distAcc + segmentDistance
      let requiredSpacing :=
        if segIdx = 0 then gc.FIRST_SEGMENT_GAP else gc.BODY_SEGMENT_SPACING
      let res := calcInner curr dx dy segmentDistance requiredSpacing currentLength
        distAcc segIdx acc
      calcOuter M gc currentLength rest curr res.1 res.2.1 res.2.2
    else acc

/-- `calculateBodySegments(player)` (lines 2256–2303). -/
def calculateBodySegments (M : JsMath) (gc : GameConstants)
    (player : ServerPlayerState) : List BodySegmentM :=
  if player.alive = false then [] else
  match player.positionHistory with
  | [] => []
  | [_] => []
  | h0 :: h1 :: rest =>
    let currentLength :=
      min (((player.bodySegments.length : ℕ) : ℚ) + 1) player.targetLength
    calcOuter M gc currentLength (h1 :: rest) h0 0 0 []

/-! ## Food system -/

/-- `FOOD_CONFIG` (final version of `server/src/index.ts`). -/
structure FoodConfig where
  CLUSTER_CHANCE : ℚ
  CLUSTER_SIZE_MIN : ℕ
  CLUSTER_SIZE_MAX : ℕ
  CLUSTER_SPREAD : ℚ
  GOLDEN_CHANCE : ℚ
  GOLDEN_MULTIPLIER : ℚ
  EDGE_BIAS : ℚ
  EDGE_MARGIN : ℚ
  PLAYER_AVOIDANCE_RADIUS : ℚ
  SPAWN_RATE_PER_PLAYER : ℚ
  BURST_CHANCE : ℚ
  BURST_SIZE : ℕ

def FOOD_CONFIG : FoodConfig where
  CLUSTER_CHANCE := 0.15
  CLUSTER_SIZE_MIN := 3
  CLUSTER_SIZE_MAX := 6
  CLUSTER_SPREAD := 80
  GOLDEN_CHANCE := 0.05
  GOLDEN_MULTIPLIER := 3
  EDGE_BIAS := 0.3
  EDGE_MARGIN := 400
  PLAYER_AVOIDANCE_RADIUS := 300
  SPAWN_RATE_PER_PLAYER := 0.5
  BURST_CHANCE := 0.02
  BURST_SIZE := 8

/-- `spawnFoodInRoom(room, x?, y?, value?)` (lines 1823–1841).
`Math.random()` is consumed exactly where the JS short-circuits consume it. -/
def spawnFoodInRoom (gc : GameConstants) (room : GameRoom)
    (x? y? value? : Option ℚ) (rand : List ℚ) : Hitodama × GameRoom × List ℚ :=
  let idRoom := room.getNextFoodId
  let id := idRoom.1
  let room := idRoom.2
  let padding : ℚ := 50
  let goldenRand :=
    match value? with
    | some _ => (false, rand)
    | none =>
      let r := randNext rand
      (decide (r.1 < FOOD_CONFIG.GOLDEN_CHANCE), r.2)
  let isGolden := goldenRand.1
  let rand := goldenRand.2
  let foodValue := value?.getD
    (if isGolden then gc.FOOD_BASE_VALUE * FOOD_CONFIG.GOLDEN_MULTIPLIER
     else gc.FOOD_BASE_VALUE)
  let xr :=
    match x? with
    | some v => (v, rand)
    | none =>
      let r := randNext rand
      (padding + r.1 * (WORLD_WIDTH - padding * 2), r.2)
  let fx := xr.1
  let rand := xr.2
  let yr :=
    match y? with
    | some v => (v, rand)
    | none =>
      let r := randNext rand
      (padding + r.1 * (WORLD_HEIGHT - padding * 2), r.2)
  let fy := yr.1
  let rand := yr.2
  let hit : Hitodama :=
    { id := id, x := fx, y := fy, value := foodValue,
      radius := if isGolden then gc.FOOD_RADIUS * 1.3 else gc.FOOD_RADIUS }
  (hit, { room with food := room.food ++ [hit] }, rand)

/-- The "try to spawn away from players" attempts of
`findSpawnLocationInRoom` (3 attempts, then the fallback random point). -/
def spawnAttempts (M : JsMath) (room : GameRoom) (padding : ℚ) (rand : List ℚ) :
    ℕ → (ℚ × ℚ) × List ℚ
  | 0 =>
    let rx := randNext rand
    let ry := randNext rx.2
    ((padding + rx.1 * (WORLD_WIDTH - padding * 2),
      padding + ry.1 * (WORLD_HEIGHT - padding * 2)), ry.2)
  | n + 1 =>
    let rx := randNext rand
    let ry := randNext rx.2
    let x := padding + rx.1 * (WORLD_WIDTH - padding * 2)
    let y := padding + ry.1 * (WORLD_HEIGHT - padding * 2)
    let tooClose := room.players.any (fun p =>
      p.alive && decide (M.sqrt ((p.x - x) * (p.x - x) + (p.y - y) * (p.y - y)) <
        FOOD_CONFIG.PLAYER_AVOIDANCE_RADIUS))
    if tooClose then spawnAttempts M room padding ry.2 n else ((x, y), ry.2)

/-- `findSpawnLocationInRoom(room)` (lines 1843–1899). -/
def findSpawnLocationInRoom (M : JsMath) (room : GameRoom) (rand : List ℚ) :
    (ℚ × ℚ) × List ℚ :=
  let padding : ℚ := 50
  let re := randNext rand
  if re.1 < FOOD_CONFIG.EDGE_BIAS then
    let rc := randNext re.2
    let edge : ℤ := ⌊rc.1 * 4⌋
    let r1 := randNext rc.2
    let r2 := randNext r1.2
    let loc :=
      if edge = 0 then
        (padding + r1.1 * (WORLD_WIDTH - padding * 2), padding + r2.1 * FOOD_CONFIG.EDGE_MARGIN)
      else if edge = 1 then
        (padding + r1.1 * (WORLD_WIDTH - padding * 2), WORLD_HEIGHT - padding - r2.1 * FOOD_CONFIG.EDGE_MARGIN)
      else if edge = 2 then
        (padding + r1.1 * FOOD_CONFIG.EDGE_MARGIN, padding + r2.1 * (WORLD_HEIGHT - padding * 2))
      else
        (WORLD_WIDTH - padding - r1.1 * FOOD_CONFIG.EDGE_MARGIN, padding + r2.1 * (WORLD_HEIGHT - padding * 2))
    (loc, r2.2)
  else
    spawnAttempts M room padding re.2 3

/-- `spawnFoodClusterInRoom(room, centerX, centerY)` (lines 1901–1918). -/
def spawnFoodClusterInRoom (M : JsMath) (gc : GameConstants) (room : GameRoom)
    (centerX centerY : ℚ) (rand : List ℚ) : GameRoom × List ℚ :=
  let rs := randNext rand
  let clusterSize := FOOD_CONFIG.CLUSTER_SIZE_MIN +
    (⌊rs.1 * ((FOOD_CONFIG.CLUSTER_SIZE_MAX - FOOD_CONFIG.CLUSTER_SIZE_MIN + 1 : ℕ) : ℚ)⌋).toNat
  (List.range clusterSize).foldl (fun acc i =>
    let (room, rand) := acc
    let ra := randNext rand
    let angle := ((i : ℚ) / (clusterSize : ℚ)) * MATH_PI * 2 + ra.1 * 0.5
    let rd := randNext ra.2
    let dist := rd.1 * FOOD_CONFIG.CLUSTER_SPREAD
    let x := centerX + M.cos angle * dist
    let y := centerY + M.sin angle * dist
    let padding : ℚ := 50
    let clampedX := max padding (min (WORLD_WIDTH - padding) x)
    let clampedY := max padding (min (WORLD_HEIGHT - padding) y)
    let res := spawnFoodInRoom gc room (some clampedX) (some clampedY) none rd.2
    (res.2.1, res.2.2)) (room, rs.2)

/-- `maintainFoodCountInRoom(room)` (lines 1920–1957). -/
def maintainFoodCountInRoom (M : JsMath) (gc : GameConstants) (room : GameRoom)
    (rand : List ℚ) : GameRoom × List ℚ :=
  let currentCount := room.food.length
  if gc.MAX_FOOD_COUNT ≤ currentCount then (room, rand) else
  let activePlayers := (room.players.filter (fun p => p.alive)).length
  let dynamicSpawnRate := gc.FOOD_SPAWN_RATE +
    (⌊(activePlayers : ℚ) * FOOD_CONFIG.SPAWN_RATE_PER_PLAYER⌋).toNat
  let rb := randNext rand
  if rb.1 < FOOD_CONFIG.BURST_CHANCE ∧ (currentCount : ℚ) < (gc.MAX_FOOD_COUNT : ℚ) * 0.8 then
    let burst := findSpawnLocationInRoom M room rb.2
    (List.range FOOD_CONFIG.BURST_SIZE).foldl (fun acc _ =>
      let (room, rand) := acc
      let ra := randNext rand
      let angle := ra.1 * MATH_PI * 2
      let rd := randNext ra.2
      let dist := rd.1 * 120
      let res := spawnFoodInRoom gc room
        (some (burst.1.1 + M.cos angle * dist))
        (some (burst.1.2 + M.sin angle * dist)) none rd.2
      (res.2.1, res.2.2)) (room, burst.2)
  else
    let toSpawn := min dynamicSpawnRate (gc.MAX_FOOD_COUNT - currentCount)
    (List.range toSpawn).foldl (fun acc _ =>
      let (room, rand) := acc
      let rc := randNext rand
      if rc.1 < FOOD_CONFIG.CLUSTER_CHANCE ∧ currentCount + 5 < gc.MAX_FOOD_COUNT then
        let loc := findSpawnLocationInRoom M room rc.2
        spawnFoodClusterInRoom M gc room loc.1.1 loc.1.2 loc.2
      else
        let loc := findSpawnLocationInRoom M room rc.2
        let res := spawnFoodInRoom gc room (some loc.1.1) (some loc.1.2) none loc.2
        (res.2.1, res.2.2)) (room, rb.2)

/-- `updateFoodMagnetismInRoom(room, deltaS)` (lines 1959–1985). -/
def updateFoodMagnetismInRoom (M : JsMath) (gc : GameConstants)
    (room : GameRoom) (deltaS : ℚ) : GameRoom :=
  room.players.foldl (fun room player =>
    if player.alive = false then room else
    let bodyCount := ((player.bodySegments.length : ℕ) : ℚ)
    let sizePullMultiplier := 1 + min (bodyCount * 0.075) 1.5
    let magnetRadius := gc.FOOD_MAGNET_RADIUS * (1 + min (bodyCount * 0.02) 0.4)
    { room with food := room.food.map (fun item =>
        let dx := player.x - item.x
        let dy := player.y - item.y
        let dist := M.sqrt (dx * dx + dy * dy)
        if dist < magnetRadius ∧ 0 < dist then
          let pullFactor := 1 - dist / magnetRadius
          let pullStrength := gc.FOOD_MAGNET_STRENGTH * pullFactor * pullFactor * sizePullMultiplier
          { item with x := item.x + dx / dist * pullStrength * deltaS,
                      y := item.y + dy / dist * pullStrength * deltaS }
        else item) }) room

/-- The per-player body of `checkFoodCollisionsInRoom`: walk `room.food` in
order accumulating score/target gains and the ids to remove, then delete
the collected ids and emit one `foodCollected` per item, in order. -/
def foodFoldStep (M : JsMath) (gc : GameConstants) (player : ServerPlayerState)
    (acc : ℚ × ℚ × List String × List GameEvent) (item : Hitodama) :
    ℚ × ℚ × List String × List GameEvent :=
  let collectionRadius := PLAYER_CONFIG.RADIUS + gc.FOOD_RADIUS
  let dx := player.x - item.x
  let dy := player.y - item.y
  let dist := M.sqrt (dx * dx + dy * dy)
  if dist < collectionRadius then
    (acc.1 + item.value, acc.2.1 + item.value * gc.GROWTH_PER_FOOD,
     acc.2.2.1 ++ [item.id],
     acc.2.2.2 ++ [GameEvent.foodCollected item.id player.id])
  else acc

def checkFoodPlayer (M : JsMath) (gc : GameConstants) (room : GameRoom)
    (player : ServerPlayerState) : GameRoom × List GameEvent :=
  let step := room.food.foldl (foodFoldStep M gc player) (0, 0, [], [])
  let room := room.updatePlayer player.id (fun p =>
    { p with score := p.score + step.1, targetLength := p.targetLength + step.2.1 })
  let room := { room with
    food := step.2.2.1.foldl (fun fs fid => fs.filter (fun f => f.id ≠ fid)) room.food }
  (room, step.2.2.2)

/-- `checkFoodCollisionsInRoom(room)` (lines 1987–2013). -/
def checkFoodCollisionsInRoom (M : JsMath) (gc : GameConstants)
    (room : GameRoom) : GameRoom × List GameEvent :=
  (room.players.map (fun p => p.id)).foldl (fun acc pid =>
    let (room, events) := acc
    match room.getPlayer pid with
    | none => (room, events)
    | some player =>
      if player.alive = false then (room, events) else
      let res := checkFoodPlayer M gc room player
      (res.1, events ++ res.2)) (room, [])

/-! ## Collision system, death and respawn -/

/-- `isAtWorldBorder(player)` (lines 2077–2085). -/
def isAtWorldBorder (player : ServerPlayerState) : Bool :=
  let margin := PLAYER_CONFIG.RADIUS * 0.5
  player.x ≤ margin ∨ WORLD_WIDTH - margin ≤ player.x ∨
    player.y ≤ margin ∨ WORLD_HEIGHT - margin ≤ player.y

/-- `distance(x1, y1, x2, y2)` (lines 2087–2091). -/
def jsDistance (M : JsMath) (x1 y1 x2 y2 : ℚ) : ℚ :=
  M.sqrt ((x1 - x2) * (x1 - x2) + (y1 - y2) * (y1 - y2))

/-- One entry of the `deaths` array built by `checkPlayerCollisionsInRoom`
(the JS array stores object references; id lookups reproduce the aliasing). -/
structure PendingDeath where
  playerId : String
  cause : DeathCause
  killerId : Option String
deriving DecidableEq, Repr

/-- The inner `for (const other of playersArray)` loop of
`checkPlayerCollisionsInRoom`, for a fixed `player`. -/
def collideOthers (M : JsMath) (gc : GameConstants) (player : ServerPlayerState) :
    List ServerPlayerState → List PendingDeath → List PendingDeath
  | [], deaths => deaths
  | other :: rest, deaths =>
    if other.id = player.id then collideOthers M gc player rest deaths
    else if deaths.any (fun d => d.playerId = player.id) then deaths
    else
      let headDist := jsDistance M player.x player.y other.x other.y
      if headDist < PLAYER_CONFIG.RADIUS * 2 then
        let deaths :=
          if gc.HEAD_COLLISION_BOTH_DIE then
            deaths ++ [⟨player.id, .head_to_head, some other.id⟩,
                       ⟨other.id, .head_to_head, some player.id⟩]
          else
            let playerSize := player.bodySegments.length
            let otherSize := other.bodySegments.length
            let deaths :=
              if playerSize ≤ otherSize then
                deaths ++ [⟨player.id, .head_to_head, some other.id⟩]
              else deaths
            if otherSize ≤ playerSize then
              deaths ++ [⟨other.id, .head_to_head, some player.id⟩]
            else deaths
        collideOthers M gc player rest deaths
      else
        if other.bodySegments.any (fun seg =>
            decide (jsDistance M player.x player.y seg.x seg.y <
              PLAYER_CONFIG.RADIUS + gc.BODY_SEGMENT_HITBOX)) then
          collideOthers M gc player rest
            (deaths ++ [⟨player.id, .head_collision, some other.id⟩])
        else collideOthers M gc player rest deaths

/-- Phase 1 of `checkPlayerCollisionsInRoom` (lines 2019–2069): build the
`deaths` array from the alive players, without touching any state. -/
def collectCollisionDeaths (M : JsMath) (gc : GameConstants) (room : GameRoom) :
    List PendingDeath :=
  let playersArray := room.players.filter (fun p => p.alive)
  playersArray.foldl (fun deaths player =>
    if deaths.any (fun d => d.playerId = player.id) then deaths
    else if isAtWorldBorder player then
      deaths ++ [⟨player.id, .world_border, none⟩]
    else collideOthers M gc player playersArray deaths) []

/-- The "drop all body segments as high-value food" loop of
`killPlayerInRoom`. -/
def deathDropSegments (gc : GameConstants) (segs : List BodySegmentM)
    (init : GameRoom × List ℚ × ℕ) : GameRoom × List ℚ × ℕ :=
  segs.foldl (fun acc seg =>
    let r1 := randNext acc.2.1
    let r2 := randNext r1.2
    let res := spawnFoodInRoom gc acc.1
      (some (seg.x + (r1.1 - 0.5) * 30)) (some (seg.y + (r2.1 - 0.5) * 30))
      (some gc.DEATH_DROP_VALUE) r2.2
    (res.2.1, res.2.2, acc.2.2 + 1)) init

/-- The "also drop some food at the head position" loop of
`killPlayerInRoom`. -/
def deathDropHead (M : JsMath) (gc : GameConstants) (player : ServerPlayerState)
    (headDrops : ℤ) (init : GameRoom × List ℚ × ℕ) : GameRoom × List ℚ × ℕ :=
  (List.range headDrops.toNat).foldl (fun acc (i : ℕ) =>
    let angle := ((i : ℚ) / (headDrops : ℚ)) * MATH_PI * 2
    let r := randNext acc.2.1
    let dist := 20 + r.1 * 30
    let res := spawnFoodInRoom gc acc.1
      (some (player.x + M.cos angle * dist))
      (some (player.y + M.sin angle * dist))
      (some gc.DEATH_DROP_VALUE) r.2
    (res.2.1, res.2.2, acc.2.2 + 1)) init

/-- `killPlayerInRoom(room, player, cause, killer?)` (lines 2097–2158).
Returns the updated room, the remaining random stream, and the emitted
events.  A dead (or absent) player is a no-op, exactly like the early
`if (!player.alive) return`. -/
def killPlayerInRoom (M : JsMath) (gc : GameConstants) (room : GameRoom)
    (playerId : String) (cause : DeathCause) (killerId : Option String)
    (now : ℚ) (rand : List ℚ) : GameRoom × List ℚ × List GameEvent :=
  match room.getPlayer playerId with
  | none => (room, rand, [])
  | some player =>
    if player.alive = false then (room, rand, []) else
    let killer := killerId.bind room.getPlayer
    let room := room.updatePlayer playerId (fun p =>
      { p with alive := false, respawnTime := now + gc.RESPAWN_DELAY })
    let room :=
      match killer with
      | some k => if k.id ≠ playerId then
          room.updatePlayer k.id (fun q => { q with kills := q.kills + 1 })
        else room
      | none => room
    let dropStep := deathDropSegments gc player.bodySegments (room, rand, 0)
    let headDrops : ℤ := min 5 (⌊player.score / 10⌋ + 1)
    let dropStep := deathDropHead M gc player headDrops dropStep
    let room := dropStep.1
    let rand := dropStep.2.1
    let foodDropped := dropStep.2.2
    let room := room.updatePlayer playerId (fun p =>
      { p with bodySegments := [], targetLength := 0, positionHistory := [] })
    let deathEvent : DeathEvent :=
      { playerId := playerId, cause := cause, killerId := killer.map (fun k => k.id),
        killerName := killer.map (fun k => k.name), x := player.x, y := player.y,
        score := player.score, foodDropped := foodDropped }
    (room, rand, [GameEvent.playerDied deathEvent])

/-- `checkPlayerCollisionsInRoom(room)` (lines 2019–2075): compute all
deaths from the tick-start state, then apply them via `killPlayerInRoom`. -/
def checkPlayerCollisionsInRoom (M : JsMath) (gc : GameConstants)
    (room : GameRoom) (now : ℚ) (rand : List ℚ) :
    GameRoom × List ℚ × List GameEvent :=
  let deaths := collectCollisionDeaths M gc room
  deaths.foldl (fun acc d =>
    let (room, rand, events) := acc
    let res := killPlayerInRoom M gc room d.playerId d.cause d.killerId now rand
    (res.1, res.2.1, events ++ res.2.2)) (room, rand, [])

/-- `respawnPlayer(player)` (lines 2160–2191). -/
def respawnPlayer (M : JsMath) (gc : GameConstants) (player : ServerPlayerState)
    (now : ℚ) (rand : List ℚ) : ServerPlayerState × List ℚ :=
  let rx := randNext rand
  let ry := randNext rx.2
  let ra := randNext ry.2
  let x := WORLD_WIDTH / 2 + (rx.1 - 0.5) * 2000
  let y := WORLD_HEIGHT / 2 + (ry.1 - 0.5) * 2000
  let angle := ra.1 * MATH_PI * 2
  let historyLength := gc.STARTING_BODY_LENGTH * gc.BODY_SEGMENT_SPACING * 2
  let seeded := (List.range (⌈historyLength⌉₊)).map (fun i =>
    (⟨x - M.cos angle * (i : ℚ) * 0.5, y - M.sin angle * (i : ℚ) * 0.5,
      now - (i : ℚ)⟩ : PositionRecord))
  ({ player with
      x := x, y := y, angle := angle, currentAngle := angle, targetAngle := angle,
      alive := true, score := 0, targetLength := gc.STARTING_BODY_LENGTH,
      bodySegments := [], respawnTime := 0, currentSpeed := 0,
      boostDropAccumulator := 0,
      positionHistory := (⟨x, y, now⟩ : PositionRecord) :: seeded }, ra.2)

/-- `checkRespawnsInRoom(room)` (lines 2193–2202). -/
def checkRespawnsInRoom (M : JsMath) (gc : GameConstants) (room : GameRoom)
    (now : ℚ) (rand : List ℚ) : GameRoom × List ℚ × List GameEvent :=
  (room.players.map (fun p => p.id)).foldl (fun acc pid =>
    let (room, rand, events) := acc
    match room.getPlayer pid with
    | none => (room, rand, events)
    | some player =>
      if player.alive = false ∧ 0 < player.respawnTime ∧ player.respawnTime ≤ now then
        let res := respawnPlayer M gc player now rand
        (room.updatePlayer pid (fun _ => res.1), res.2,
         events ++ [GameEvent.playerRespawned pid])
      else (room, rand, events)) (room, rand, [])

/-! ## Boost drop -/

/-- The `while (accumulator >= 1 && targetLength > MIN)` loop of
`handleBoostDropInRoom`: each pass burns one unit of target length and
drops a pellet at the current tail segment. -/
def boostDropLoop (gc : GameConstants) (room : GameRoom)
    (player : ServerPlayerState) (rand : List ℚ) :
    GameRoom × ServerPlayerState × List ℚ :=
  if h : 1 ≤ player.boostDropAccumulator ∧ gc.MIN_BODY_LENGTH < player.targetLength then
    let player := { player with
      boostDropAccumulator := player.boostDropAccumulator - 1,
      targetLength := player.targetLength - 1 }
    match player.bodySegments.getLast? with
    | some tailSegment =>
      let r1 := randNext rand
      let r2 := randNext r1.2
      let res := spawnFoodInRoom gc room
        (some (tailSegment.x + (r1.1 - 0.5) * 10))
        (some (tailSegment.y + (r2.1 - 0.5) * 10))
        (some gc.DROPPED_PELLET_VALUE) r2.2
      boostDropLoop gc res.2.1 player res.2.2
    | none => boostDropLoop gc room player rand
  else (room, player, rand)
termination_by ⌈player.boostDropAccumulator⌉₊
decreasing_by
  all_goals exact ceil_sub_one_lt (by linarith [h.1])

/-- `handleBoostDropInRoom(room, player, deltaS)` (lines 2309–2330).  The
player is looked up (and written back) in the room, mirroring the JS
mutation of the aliased object. -/
def handleBoostDropInRoom (gc : GameConstants) (room : GameRoom)
    (pid : String) (deltaS : ℚ) (rand : List ℚ) : GameRoom × List ℚ :=
  match room.getPlayer pid with
  | none => (room, rand)
  | some player =>
    if player.alive = false then (room, rand) else
    if player.input.boosting = false ∨ player.targetLength ≤ gc.MIN_BODY_LENGTH then
      (room, rand)
    else
      let player := { player with
        boostDropAccumulator := player.boostDropAccumulator + gc.BOOST_DROP_RATE * deltaS }
      let res := boostDropLoop gc room player rand
      (res.1.updatePlayer pid (fun _ => res.2.1), res.2.2)

/-! ## The per-room body of `gameLoop` (lines 2462–2496) -/

/-- The "update all alive players" loop of `gameLoop`: movement, position
history, body segments, boost drop — in that order, player by player. -/
def playerUpdatePhase (M : JsMath) (gc : GameConstants) (room : GameRoom)
    (deltaS now : ℚ) (rand : List ℚ) : GameRoom × List ℚ :=
  (room.players.map (fun p => p.id)).foldl (fun acc pid =>
    let (room, rand) := acc
    match room.getPlayer pid with
    | none => (room, rand)
    | some player =>
      if player.alive = false then (room, rand) else
      let player := updatePlayerMovement M gc player deltaS
      let player := updatePositionHistory gc player now
      let player := { player with bodySegments := calculateBodySegments M gc player }
      let room := room.updatePlayer pid (fun _ => player)
      handleBoostDropInRoom gc room pid deltaS rand) (room, rand)

/-- One tick of `gameLoop` for one room (lines 2462–2496): increment the
tick counter, respawns, player updates, player collisions, magnetism, food
collection, food maintenance.  The snapshot broadcast at the end of the
loop body only reads state and is not part of the state transition. -/
def roomTick (M : JsMath) (gc : GameConstants) (room : GameRoom)
    (now : ℚ) (rand : List ℚ) : GameRoom × List ℚ × List GameEvent :=
  let deltaMs := 1000 / TICK_RATE
  let deltaS := deltaMs / 1000
  let room := { room with currentTick := room.currentTick + 1 }
  let r1 := checkRespawnsInRoom M gc room now rand
  let r2 := playerUpdatePhase M gc r1.1 deltaS now r1.2.1
  let r3 := checkPlayerCollisionsInRoom M gc r2.1 now r2.2
  let room := updateFoodMagnetismInRoom M gc r3.1 deltaS
  let r4 := checkFoodCollisionsInRoom M gc room
  let r5 := maintainFoodCountInRoom M gc r4.1 r3.2.1
  (r5.1, r5.2, r1.2.2 ++ r3.2.2 ++ r4.2)

/-! ## Client-side prediction (`client/src/network/ClientPrediction.ts`) -/

/-- `StoredInput`: an input together with the prediction it produced. -/
structure StoredInput where
  input : PlayerInputM
  predictedX : ℚ
  predictedY : ℚ
  predictedAngle : ℚ
  predictedSpeed : ℚ
deriving DecidableEq, Repr

/-- The private state of a `ClientPrediction` instance. -/
structure ClientPrediction where
  inputHistory : List StoredInput
  inputSequence : ℕ
  x : ℚ
  y : ℚ
  currentAngle : ℚ
  targetAngle : ℚ
  currentSpeed : ℚ
  correctionX : ℚ
  correctionY : ℚ
deriving DecidableEq, Repr

/-- The `ClientPrediction` constructor. -/
def ClientPrediction.create (initialX initialY initialAngle : ℚ) : ClientPrediction :=
  { inputHistory := [], inputSequence := 0, x := initialX, y := initialY,
    currentAngle := initialAngle, targetAngle := initialAngle, currentSpeed := 0,
    correctionX := 0, correctionY := 0 }

/-- `applyCorrection()`: bleed a `RECONCILIATION_SMOOTHING` fraction of the
pending correction into the live position, zeroing tiny leftovers. -/
def ClientPrediction.applyCorrection (cp : ClientPrediction) : ClientPrediction :=
  let smoothing := RECONCILIATION_SMOOTHING
  let applyX := cp.correctionX * smoothing
  let applyY := cp.correctionY * smoothing
  let cp := { cp with x := cp.x + applyX, y := cp.y + applyY,
                      correctionX := cp.correctionX - applyX,
                      correctionY := cp.correctionY - applyY }
  let cp := if |cp.correctionX| < 0.1 then { cp with correctionX := 0 } else cp
  if |cp.correctionY| < 0.1 then { cp with correctionY := 0 } else cp

/-- `processInput(mouseX, mouseY, boosting, deltaMs, sequence)`
(lines 53–140): predict one frame of movement, record the stored input,
trim the history, apply pending smoothing.  Returns the new state and the
rendered `{x, y, angle, speed}`. -/
def ClientPrediction.processInput (M : JsMath) (cp : ClientPrediction)
    (mouseX mouseY : ℚ) (boosting : Bool) (deltaMs : ℚ) (sequence : ℕ)
    (now : ℚ) : ClientPrediction × (ℚ × ℚ × ℚ × ℚ) :=
  let deltaS := deltaMs / 1000
  let dist := M.sqrt (mouseX * mouseX + mouseY * mouseY)
  let cp :=
    if 0.05 < dist then
      let targetAngle := M.atan2 mouseY mouseX
      let angleDiff := wrapAngle (targetAngle - cp.currentAngle)
      let turnAmount := CLIENT_PLAYER_CONFIG.TURN_SPEED * deltaS
      let currentAngle :=
        if |angleDiff| < turnAmount then targetAngle
        else if 0 < angleDiff then cp.currentAngle + turnAmount
        else cp.currentAngle - turnAmount
      let currentAngle := wrapAngle currentAngle
      let speedFactor := min dist 1
      let baseSpeed := CLIENT_PLAYER_CONFIG.BASE_SPEED * speedFactor
      let currentSpeed :=
        if boosting then baseSpeed * CLIENT_PLAYER_CONFIG.BOOST_MULTIPLIER
        else baseSpeed
      { cp with targetAngle := targetAngle, currentAngle := currentAngle,
                currentSpeed := currentSpeed }
    else
      { cp with currentSpeed := cp.currentSpeed * 0.95 }
  let velocityX := M.cos cp.currentAngle * cp.currentSpeed
  let velocityY := M.sin cp.currentAngle * cp.currentSpeed
  let radius := CLIENT_PLAYER_CONFIG.RADIUS
  let cp := { cp with
    x := clamp (cp.x + velocityX * deltaS) radius (CLIENT_WORLD_WIDTH - radius),
    y := clamp (cp.y + velocityY * deltaS) radius (CLIENT_WORLD_HEIGHT - radius) }
  let stored : StoredInput :=
    { input := { sequence := sequence, mouseX := mouseX, mouseY := mouseY,
                 boosting := boosting, timestamp := now },
      predictedX := cp.x, predictedY := cp.y,
      predictedAngle := cp.currentAngle, predictedSpeed := cp.currentSpeed }
  let history := cp.inputHistory ++ [stored]
  let history := history.drop (history.length - INPUT_BUFFER_SIZE)
  let cp := { cp with inputHistory := history }
  let cp := cp.applyCorrection
  (cp, (cp.x + cp.correctionX, cp.y + cp.correctionY, cp.currentAngle, cp.currentSpeed))

/-- The public `PlayerState` fields the client reads during reconciliation
and interpolation (`shared/types.ts`, `src/unnamed/part_001`). -/
structure PlayerStateM where
  id : String
  name : String
  x : ℚ
  y : ℚ
  angle : ℚ
  speed : ℚ
  score : ℚ
  bodySegments : List BodySegmentM
  targetLength : ℚ
  lastProcessedInput : ℕ
  alive : Bool
  kills : ℕ
deriving DecidableEq, Repr

/-- The body of `replayInputs()` for a single stored input: one step of the
movement model at the fixed server tick delta, updating the stored
prediction in place. -/
def ClientPrediction.replayStep (M : JsMath) (cp : ClientPrediction)
    (stored : StoredInput) : ClientPrediction × StoredInput :=
  let tickDelta := 1000 / SERVER_TICK_RATE
  let mouseX := stored.input.mouseX
  let mouseY := stored.input.mouseY
  let boosting := stored.input.boosting
  let dist := M.sqrt (mouseX * mouseX + mouseY * mouseY)
  let deltaS := tickDelta / 1000
  let cp :=
    if 0.05 < dist then
      let targetAngle := M.atan2 mouseY mouseX
      let angleDiff := wrapAngle (targetAngle - cp.currentAngle)
      let turnAmount := CLIENT_PLAYER_CONFIG.TURN_SPEED * deltaS
      let currentAngle :=
        if |angleDiff| < turnAmount then targetAngle
        else if 0 < angleDiff then cp.currentAngle + turnAmount
        else cp.currentAngle - turnAmount
      let currentAngle := wrapAngle currentAngle
      let speedFactor := min dist 1
      let baseSpeed := CLIENT_PLAYER_CONFIG.BASE_SPEED * speedFactor
      let currentSpeed :=
        if boosting then baseSpeed * CLIENT_PLAYER_CONFIG.BOOST_MULTIPLIER
        else baseSpeed
      { cp with targetAngle := targetAngle, currentAngle := currentAngle,
                currentSpeed := currentSpeed }
    else
      { cp with currentSpeed := cp.currentSpeed * 0.95 }
  let velocityX := M.cos cp.currentAngle * cp.currentSpeed
  let velocityY := M.sin cp.currentAngle * cp.currentSpeed
  let radius := CLIENT_PLAYER_CONFIG.RADIUS
  let cp := { cp with
    x := clamp (cp.x + velocityX * deltaS) radius (CLIENT_WORLD_WIDTH - radius),
    y := clamp (cp.y + velocityY * deltaS) radius (CLIENT_WORLD_HEIGHT - radius) }
  (cp, { stored with predictedX := cp.x, predictedY := cp.y,
                     predictedAngle := cp.currentAngle,
                     predictedSpeed := cp.currentSpeed })

/-- `replayInputs()` (lines 206–255): re-simulate every still-buffered
input at the server tick rate, refreshing the stored predictions. -/
def ClientPrediction.replayInputs (M : JsMath) (cp : ClientPrediction) : ClientPrediction :=
  let res := cp.inputHistory.foldl
    (fun (acc : ClientPrediction × List StoredInput) stored =>
      let (cp, done) := acc
      let step := ClientPrediction.replayStep M { cp with inputHistory := [] } stored
      ({ step.1 with inputHistory := [] }, done ++ [step.2]))
    ({ cp with inputHistory := [] }, [])
  { res.1 with inputHistory := res.2 }

/-- `reconcile(serverState)` (lines 146–201). -/
def ClientPrediction.reconcile (M : JsMath) (cp : ClientPrediction)
    (serverState : PlayerStateM) : ClientPrediction :=
  let lastProcessed := serverState.lastProcessedInput
  match cp.inputHistory.findIdx? (fun stored => stored.input.sequence = lastProcessed) with
  | none =>
    let dx := serverState.x - cp.x
    let dy := serverState.y - cp.y
    let dist := M.sqrt (dx * dx + dy * dy)
    if MAX_POSITION_ERROR < dist then
      { cp with x := serverState.x, y := serverState.y,
                currentAngle := serverState.angle, currentSpeed := serverState.speed,
                correctionX := 0, correctionY := 0 }
    else cp
  | some processedIndex =>
    match cp.inputHistory.get? processedIndex with
    | none => cp
    | some storedAtProcessed =>
      let errorX := serverState.x - storedAtProcessed.predictedX
      let errorY := serverState.y - storedAtProcessed.predictedY
      let errorDistance := M.sqrt (errorX * errorX + errorY * errorY)
      let cp := { cp with inputHistory := cp.inputHistory.drop (processedIndex + 1) }
      if MAX_POSITION_ERROR < errorDistance then
        let cp := { cp with x := serverState.x, y := serverState.y,
                            currentAngle := serverState.angle,
                            currentSpeed := serverState.speed,
                            correctionX := 0, correctionY := 0 }
        cp.replayInputs M
      else if 0.5 < errorDistance then
        { cp with correctionX := cp.correctionX + errorX,
                  correctionY := cp.correctionY + errorY }
      else cp

/-! ## Snapshot interpolation (`client/src/network/SnapshotInterpolation.ts`) -/

/-- `ScoreboardEntry` (`shared/types.ts`). -/
structure ScoreboardEntry where
  id : String
  name : String
  score : ℚ
  kills : ℕ
  bodyLength : ℕ
deriving DecidableEq, Repr

/-- `GameSnapshot` (`shared/types.ts`): the full per-tick state export. -/
structure GameSnapshotM where
  players : List PlayerStateM
  food : List Hitodama
  scoreboard : List ScoreboardEntry
  serverTime : ℚ
  tick : ℕ
deriving DecidableEq, Repr

/-- `InterpolatedPlayer`. -/
structure InterpolatedPlayer where
  id : String
  x : ℚ
  y : ℚ
  angle : ℚ
  speed : ℚ
  score : ℚ
  bodySegments : List BodySegmentM
deriving DecidableEq, Repr

/-- State of a `SnapshotInterpolation` instance. -/
structure SnapshotInterpolation where
  snapshots : List GameSnapshotM
  serverTimeOffset : ℚ
  rtt : ℚ
deriving DecidableEq, Repr

/-- `lerp(a, b, t)`. -/
def lerp (a b t : ℚ) : ℚ := a + (b - a) * t

/-- `lerpAngle(a, b, t)`: the two normalising `while` loops then linear
interpolation along the short way round. -/
def lerpAngle (a b t : ℚ) : ℚ :=
  let diff := wrapUp (wrapDown (b - a))
  a + diff * t

/-- `playerStateToInterpolated(state)`. -/
def playerStateToInterpolated (state : PlayerStateM) : InterpolatedPlayer :=
  { id := state.id, x := state.x, y := state.y, angle := state.angle,
    speed := state.speed, score := state.score, bodySegments := state.bodySegments }

/-- `interpolateBodySegments(before, after, t)`. -/
def interpolateBodySegments (before after : List BodySegmentM) (t : ℚ) :
    List BodySegmentM :=
  (List.range (max before.length after.length)).foldl (fun acc i =>
    match before.get? i, after.get? i with
    | some segBefore, some segAfter =>
      acc ++ [⟨lerp segBefore.x segAfter.x t, lerp segBefore.y segAfter.y t⟩]
    | none, some segAfter => acc ++ [⟨segAfter.x, segAfter.y⟩]
    | _, none => acc) []

/-- `interpolatePlayer(before, after, t)`. -/
def interpolatePlayer (before after : PlayerStateM) (t : ℚ) : InterpolatedPlayer :=
  { id := after.id, x := lerp before.x after.x t, y := lerp before.y after.y t,
    angle := lerpAngle before.angle after.angle t,
    speed := lerp before.speed after.speed t, score := after.score,
    bodySegments := interpolateBodySegments before.bodySegments after.bodySegments t }

/-- The scan loop of `findInterpolationSnapshots`: `before` becomes the
last snapshot with `serverTime <= renderTime` seen before the first one
with `serverTime > renderTime`, which becomes `after` (then `break`). -/
def findPair (renderTime : ℚ) : List GameSnapshotM → Option GameSnapshotM →
    Option GameSnapshotM × Option GameSnapshotM
  | [], before => (before, none)
  | s :: rest, before =>
    if s.serverTime ≤ renderTime then findPair renderTime rest (some s)
    else (before, some s)

/-- `findInterpolationSnapshots(renderTime)` (lines 134–167). -/
def findInterpolationSnapshots (si : SnapshotInterpolation) (renderTime : ℚ) :
    Option GameSnapshotM × Option GameSnapshotM × ℚ :=
  match hsn : si.snapshots with
  | [] => (none, none, 0)
  | first :: _ =>
    let scanned := findPair renderTime si.snapshots none
    match scanned with
    | (some before, some after) =>
      let timeBetween := after.serverTime - before.serverTime
      let timeSinceBefore := renderTime - before.serverTime
      let t := if 0 < timeBetween then min 1 (max 0 (timeSinceBefore / timeBetween)) else 0
      (some before, some after, t)
    | (some before, none) => (some before, none, 0)
    | (none, _) => (some first, none, 0)

/-- `players[id]` lookup on a snapshot (a JS `Record` keyed by player id). -/
def snapshotLookup (s : GameSnapshotM) (pid : String) : Option PlayerStateM :=
  s.players.find? (fun p => p.id = pid)

/-- `getInterpolatedPlayers(excludePlayerId?)` (lines 80–119), with the
render time passed explicitly (the TS method derives it from `Date.now()`
and the estimated clock offset). -/
def getInterpolatedPlayers (si : SnapshotInterpolation)
    (excludePlayerId : Option String) (renderTime : ℚ) :
    List (String × InterpolatedPlayer) :=
  match findInterpolationSnapshots si renderTime with
  | (none, _, _) => []
  | (some before, after?, t) =>
    match after? with
    | none =>
      match si.snapshots.getLast? with
      | none => []
      | some snapshot =>
        snapshot.players.foldl (fun acc player =>
          if excludePlayerId = some player.id then acc
          else acc ++ [(player.id, playerStateToInterpolated player)]) []
    | some after =>
      after.players.foldl (fun acc playerAfter =>
        if excludePlayerId = some playerAfter.id then acc
        else
          match snapshotLookup before playerAfter.id with
          | none => acc ++ [(playerAfter.id, playerStateToInterpolated playerAfter)]
          | some playerBefore =>
            acc ++ [(playerAfter.id, interpolatePlayer playerBefore playerAfter t)]) []

/-! ## Basic invariance lemmas -/

/-- Invariants survive a left fold. -/
theorem foldl_inv {α β : Type} (g : β → α → β) (P : β → Prop)
    (l : List α) (h : ∀ acc a, P acc → P (g acc a)) :
    ∀ init, P init → P (l.foldl g init) := by
  induction l with
  | nil => intro init hi; simpa using hi
  | cons a l ih =>
    intro init hi
    simpa using ih (g init a) (h init a hi)

theorem spawnFoodInRoom_players (gc : GameConstants) (room : GameRoom)
    (x? y? value? : Option ℚ) (rand : List ℚ) :
    (spawnFoodInRoom gc room x? y? value? rand).2.1.players = room.players := by
  cases value? <;> cases x? <;> cases y? <;>
    simp [spawnFoodInRoom, GameRoom.getNextFoodId]

theorem spawnFoodClusterInRoom_players (M : JsMath) (gc : GameConstants)
    (room : GameRoom) (cx cy : ℚ) (rand : List ℚ) :
    (spawnFoodClusterInRoom M gc room cx cy rand).1.players = room.players := by
  unfold spawnFoodClusterInRoom
  refine foldl_inv _ (fun (acc : GameRoom × List ℚ) => acc.1.players = room.players) _
    (fun acc a hp => ?_) _ rfl
  obtain ⟨r, rs⟩ := acc
  simpa [spawnFoodInRoom_players] using hp

theorem maintainFoodCountInRoom_players (M : JsMath) (gc : GameConstants)
    (room : GameRoom) (rand : List ℚ) :
    (maintainFoodCountInRoom M gc room rand).1.players = room.players := by
  unfold maintainFoodCountInRoom
  dsimp only
  split
  · rfl
  · split
    · refine foldl_inv _ (fun (acc : GameRoom × List ℚ) => acc.1.players = room.players) _
        (fun acc a hp => ?_) _ rfl
      obtain ⟨r, rs⟩ := acc
      simpa [spawnFoodInRoom_players] using hp
    · refine foldl_inv _ (fun (acc : GameRoom × List ℚ) => acc.1.players = room.players) _
        (fun acc a hp => ?_) _ rfl
      obtain ⟨r, rs⟩ := acc
      dsimp only
      split
      · simpa [spawnFoodClusterInRoom_players] using hp
      · simpa [spawnFoodInRoom_players] using hp

theorem updateFoodMagnetismInRoom_players (M : JsMath) (gc : GameConstants)
    (room : GameRoom) (deltaS : ℚ) :
    (updateFoodMagnetismInRoom M gc room deltaS).players = room.players := by
  unfold updateFoodMagnetismInRoom
  refine foldl_inv _ (fun (r : GameRoom) => r.players = room.players) _
    (fun r p hp => ?_) _ rfl
  dsimp only
  split
  · exact hp
  · simpa using hp

theorem deathDropSegments_players (gc : GameConstants) (segs : List BodySegmentM)
    (init : GameRoom × List ℚ × ℕ) :
    (deathDropSegments gc segs init).1.players = init.1.players := by
  unfold deathDropSegments
  refine foldl_inv _ (fun (acc : GameRoom × List ℚ × ℕ) => acc.1.players = init.1.players)
    _ (fun acc a hp => ?_) _ rfl
  simpa [spawnFoodInRoom_players] using hp

theorem deathDropHead_players (M : JsMath) (gc : GameConstants)
    (player : ServerPlayerState) (headDrops : ℤ) (init : GameRoom × List ℚ × ℕ) :
    (deathDropHead M gc player headDrops init).1.players = init.1.players := by
  unfold deathDropHead
  refine foldl_inv _ (fun (acc : GameRoom × List ℚ × ℕ) => acc.1.players = init.1.players)
    _ (fun acc a hp => ?_) _ rfl
  simpa [spawnFoodInRoom_players] using hp

/-- Killing a player that is present but already dead is a no-op: the room
is untouched, the random stream is not consumed, nothing is emitted. -/
theorem killPlayerInRoom_dead_noop (M : JsMath) (gc : GameConstants)
    (room : GameRoom) (pid : String) (cause : DeathCause) (kid : Option String)
    (now : ℚ) (rand : List ℚ) (player : ServerPlayerState)
    (h1 : room.getPlayer pid = some player) (h2 : player.alive = false) :
    killPlayerInRoom M gc room pid cause kid now rand = (room, rand, []) := by
  unfold killPlayerInRoom
  rw [h1]
  simp [h2]

/-- What `killPlayerInRoom` does to the player list when the victim is
present and alive: the victim is marked dead and stripped of body, target
length and trail; the killer (when distinct from the victim) is credited a
kill; nobody else changes.  Food spawning does not touch the players. -/
theorem killPlayerInRoom_players_eq (M : JsMath) (gc : GameConstants)
    (room : GameRoom) (pid : String) (cause : DeathCause) (kid : Option String)
    (now : ℚ) (rand : List ℚ) (player : ServerPlayerState)
    (h1 : room.getPlayer pid = some player) (h2 : player.alive = true) :
    (killPlayerInRoom M gc room pid cause kid now rand).1.players =
      room.players.map (fun p =>
        if p.id = pid then
          { p with alive := false, respawnTime := now + gc.RESPAWN_DELAY,
                   bodySegments := [], targetLength := 0, positionHistory := [] }
        else
          match kid.bind room.getPlayer with
          | some k => if k.id ≠ pid ∧ p.id = k.id then { p with kills := p.kills + 1 } else p
          | none => p) := by
  unfold killPlayerInRoom
  rw [h1]
  simp only [h2, Bool.true_eq_false, ite_false, reduceCtorEq]
  rw [show ∀ r : GameRoom, ∀ f, (GameRoom.updatePlayer r pid f).players = r.players.map
      (fun p => if p.id = pid then f p else p) from fun _ _ => rfl]
  rw [deathDropHead_players, deathDropSegments_players]
  cases hk : kid.bind room.getPlayer with
  | none =>
    simp only [GameRoom.updatePlayer, List.map_map]
    refine List.map_congr_left (fun p hp => ?_)
    by_cases hpd : p.id = pid <;> simp [hpd, Function.comp]
  | some k =>
    by_cases hkp : k.id = pid
    · simp only [hkp, ne_eq, not_true_eq_false, ite_false, GameRoom.updatePlayer,
        List.map_map]
      refine List.map_congr_left (fun p hp => ?_)
      by_cases hpd : p.id = pid <;> simp [hpd, Function.comp]
    · simp only [ne_eq, hkp, not_false_eq_true, ite_true, GameRoom.updatePlayer,
        List.map_map]
      refine List.map_congr_left (fun p hp => ?_)
      by_cases hpd : p.id = pid
      · simp [hpd, Function.comp, hkp, Ne.symm hkp]
      · by_cases hpk : p.id = k.id <;>
          simp [hpd, hpk, Function.comp, hkp, Ne.symm hkp]

/-- Killing an id that is not in the room is a no-op (never reached by the
collision path, which only passes players of the room). -/
theorem killPlayerInRoom_absent_noop (M : JsMath) (gc : GameConstants)
    (room : GameRoom) (pid : String) (cause : DeathCause) (kid : Option String)
    (now : ℚ) (rand : List ℚ) (h : room.getPlayer pid = none) :
    killPlayerInRoom M gc room pid cause kid now rand = (room, rand, []) := by
  unfold killPlayerInRoom
  rw [h]

/-- `killPlayerInRoom` never moves anybody: ids and positions of the player
list are untouched. -/
theorem killPlayerInRoom_positions (M : JsMath) (gc : GameConstants)
    (room : GameRoom) (pid : String) (cause : DeathCause) (kid : Option String)
    (now : ℚ) (rand : List ℚ) :
    ((killPlayerInRoom M gc room pid cause kid now rand).1.players).map
        (fun p => (p.id, p.x, p.y)) =
      room.players.map (fun p => (p.id, p.x, p.y)) := by
  cases h : room.getPlayer pid with
  | none => rw [killPlayerInRoom_absent_noop M gc room pid cause kid now rand h]
  | some player =>
    cases h2 : player.alive with
    | false => rw [killPlayerInRoom_dead_noop M gc room pid cause kid now rand player h h2]
    | true =>
      rw [killPlayerInRoom_players_eq M gc room pid cause kid now rand player h h2,
        List.map_map]
      refine List.map_congr_left (fun p hp => ?_)
      by_cases hpd : p.id = pid
      · simp [hpd, Function.comp]
      · cases hk : kid.bind room.getPlayer with
        | none => simp [hpd, Function.comp, hk]
        | some k =>
          by_cases hpk : k.id ≠ pid ∧ p.id = k.id <;>
            simp [hpd, Function.comp, hk, hpk]

/-- Every entry of the death list references a victim (and, when present, a
killer) that was alive in the room state the check started from. -/
def DeathFromAlive (room : GameRoom) (d : PendingDeath) : Prop :=
  (∃ p, p ∈ room.players ∧ p.alive = true ∧ p.id = d.playerId) ∧
  ∀ kId, d.killerId = some kId →
    ∃ p, p ∈ room.players ∧ p.alive = true ∧ p.id = kId

theorem collideOthers_sound (M : JsMath) (gc : GameConstants) (room : GameRoom)
    (player : ServerPlayerState)
    (hpl : player ∈ room.players ∧ player.alive = true) :
    ∀ (others : List ServerPlayerState) (deaths : List PendingDeath),
      (∀ o ∈ others, o ∈ room.players ∧ o.alive = true) →
      (∀ d ∈ deaths, DeathFromAlive room d) →
      ∀ d ∈ collideOthers M gc player others deaths, DeathFromAlive room d := by
  intro others
  induction others with
  | nil => intro deaths _ hd; simpa [collideOthers] using hd
  | cons other rest ih =>
    intro deaths ho hd
    have hoth : other ∈ room.players ∧ other.alive = true := ho other (by simp)
    have hrest : ∀ o ∈ rest, o ∈ room.players ∧ o.alive = true :=
      fun o hm => ho o (by simp [hm])
    have hDplayer : DeathFromAlive room
        ⟨player.id, DeathCause.head_to_head, some other.id⟩ :=
      ⟨⟨player, hpl.1, hpl.2, rfl⟩,
       fun kId hk => ⟨other, hoth.1, hoth.2, by simpa using hk⟩⟩
    have hDother : DeathFromAlive room
        ⟨other.id, DeathCause.head_to_head, some player.id⟩ :=
      ⟨⟨other, hoth.1, hoth.2, rfl⟩,
       fun kId hk => ⟨player, hpl.1, hpl.2, by simpa using hk⟩⟩
    have hDbody : DeathFromAlive room
        ⟨player.id, DeathCause.head_collision, some other.id⟩ :=
      ⟨⟨player, hpl.1, hpl.2, rfl⟩,
       fun kId hk => ⟨other, hoth.1, hoth.2, by simpa using hk⟩⟩
    have hgen : ∀ extra : List PendingDeath,
        (∀ d ∈ extra, DeathFromAlive room d) →
        ∀ d ∈ collideOthers M gc player rest (deaths ++ extra),
          DeathFromAlive room d := by
      intro extra he
      refine ih _ hrest (fun d hm => ?_)
      rcases List.mem_append.mp hm with hm | hm
      · exact hd d hm
      · exact he d hm
    have hgen0 : ∀ d ∈ collideOthers M gc player rest deaths, DeathFromAlive room d :=
      ih _ hrest hd
    unfold collideOthers
    dsimp only
    by_cases h1 : other.id = player.id
    · rw [if_pos h1]; exact ih deaths hrest hd
    rw [if_neg h1]
    by_cases h2 : (deaths.any fun d => d.playerId = player.id) = true
    · rw [if_pos h2]; exact hd
    rw [if_neg h2]
    by_cases h3 : jsDistance M player.x player.y other.x other.y <
      PLAYER_CONFIG.RADIUS * 2
    · rw [if_pos h3]
      by_cases h4 : gc.HEAD_COLLISION_BOTH_DIE = true
      · rw [if_pos h4]
        refine hgen _ (fun d hm => ?_)
        rcases List.mem_cons.mp hm with h | hm
        · exact h ▸ hDplayer
        rcases List.mem_cons.mp hm with h | hm
        · exact h ▸ hDother
        · simp at hm
      · rw [if_neg h4]
        by_cases h5 : player.bodySegments.length ≤ other.bodySegments.length
        · rw [if_pos h5]
          by_cases h6 : other.bodySegments.length ≤ player.bodySegments.length
          · rw [if_pos h6]
            rw [List.append_assoc]
            refine hgen _ (fun d hm => ?_)
            rcases List.mem_append.mp hm with hm | hm
            · rcases List.mem_cons.mp hm with h | hm
              · exact h ▸ hDplayer
              · simp at hm
            · rcases List.mem_cons.mp hm with h | hm
              · exact h ▸ hDother
              · simp at hm
          · rw [if_neg h6]
            refine hgen _ (fun d hm => ?_)
            rcases List.mem_cons.mp hm with h | hm
            · exact h ▸ hDplayer
            · simp at hm
        · rw [if_neg h5]
          by_cases h6 : other.bodySegments.length ≤ player.bodySegments.length
          · rw [if_pos h6]
            refine hgen _ (fun d hm => ?_)
            rcases List.mem_cons.mp hm with h | hm
            · exact h ▸ hDother
            · simp at hm
          · rw [if_neg h6]; exact hgen0
    · rw [if_neg h3]
      by_cases h7 : (other.bodySegments.any fun seg =>
          decide (jsDistance M player.x player.y seg.x seg.y <
            PLAYER_CONFIG.RADIUS + gc.BODY_SEGMENT_HITBOX)) = true
      · rw [if_pos h7]
        refine hgen _ (fun d hm => ?_)
        rcases List.mem_cons.mp hm with h | hm
        · exact h ▸ hDbody
        · simp at hm
      · rw [if_neg h7]; exact hgen0

/-- `foldl_inv` with membership information about the traversed element. -/
theorem foldl_inv_mem {α β : Type} (g : β → α → β) (P : β → Prop)
    (l : List α) (h : ∀ acc a, a ∈ l → P acc → P (g acc a)) :
    ∀ init, P init → P (l.foldl g init) := by
  induction l with
  | nil => intro init hi; simpa using hi
  | cons a l ih =>
    intro init hi
    simpa using ih (fun acc b hb hacc => h acc b (by simp [hb]) hacc)
      (g init a) (h init a (by simp) hi)

theorem collectCollisionDeaths_sound (M : JsMath) (gc : GameConstants)
    (room : GameRoom) :
    ∀ d ∈ collectCollisionDeaths M gc room, DeathFromAlive room d := by
  unfold collectCollisionDeaths
  have hmem : ∀ p ∈ room.players.filter (fun p => p.alive),
      p ∈ room.players ∧ p.alive = true := by
    intro p hp
    have := List.mem_filter.mp hp
    exact ⟨this.1, by simpa using this.2⟩
  refine foldl_inv_mem _ (fun (deaths : List PendingDeath) =>
      ∀ d ∈ deaths, DeathFromAlive room d) _ (fun deaths p hmemP hacc => ?_) _ (by simp)
  have hp := hmem p hmemP
  dsimp only
  split
  · exact hacc
  · split
    · intro d hm
      rcases List.mem_append.mp hm with hm | hm
      · exact hacc d hm
      · rcases List.mem_cons.mp hm with h | hm
        · exact h ▸ ⟨⟨p, hp.1, hp.2, rfl⟩, fun kId hk => by simp at hk⟩
        · simp at hm
    · exact collideOthers_sound M gc room p hp _ deaths hmem hacc

theorem checkPlayerCollisionsInRoom_positions (M : JsMath) (gc : GameConstants)
    (room : GameRoom) (now : ℚ) (rand : List ℚ) :
    ((checkPlayerCollisionsInRoom M gc room now rand).1.players).map
        (fun p => (p.id, p.x, p.y)) =
      room.players.map (fun p => (p.id, p.x, p.y)) := by
  unfold checkPlayerCollisionsInRoom
  refine foldl_inv _ (fun (acc : GameRoom × List ℚ × List GameEvent) =>
      acc.1.players.map (fun p => (p.id, p.x, p.y)) =
        room.players.map (fun p => (p.id, p.x, p.y))) _
    (fun acc d hp => ?_) _ rfl
  exact (killPlayerInRoom_positions M gc acc.1 d.playerId d.cause d.killerId
    now acc.2.1).trans hp

/-! ## Concrete fixtures used by witnesses and counterexamples -/

/-- The all-zero input (inside the 0.05 deadzone). -/
def zeroInput : PlayerInputM :=
  { sequence := 0, mouseX := 0, mouseY := 0, boosting := false, timestamp := 0 }

/-- A baseline alive player all fixtures derive from. -/
def basePlayer : ServerPlayerState :=
  { id := "p", name := "p", x := 1000, y := 1000, angle := 0, speed := 0,
    score := 0, bodySegments := [], targetLength := 3, roomId := "room-1",
    lastProcessedInput := 0, alive := true, kills := 0, input := zeroInput,
    currentAngle := 0, targetAngle := 0, currentSpeed := 0, positionHistory := [],
    boostDropAccumulator := 0, respawnTime := 0, hasJoined := true }

/-- An empty baseline room. -/
def baseRoom : GameRoom :=
  { id := "room-1", players := [], food := [], currentTick := 0, foodIdCounter := 0 }

/-! ## C5: collision checks run on a tick-start snapshot, kills afterwards -/

/-- C5.  Within one invocation of `checkPlayerCollisionsInRoom`:
(1) the function literally equals "compute the full death list from the
starting room state, then fold `killPlayerInRoom` over it" — every kill is
applied only after all border / head-to-head / head-versus-body checks have
completed; (2) every death entry computed references a victim, and (when
present) a killer, that is alive in the starting snapshot — no entity kills
or dies through state mutated earlier in the same check; (3) the whole
check moves nobody: ids and positions are untouched, so all checks read the
positions as they stood at the start of the check. -/
theorem C5_collision_checks_snapshot_then_kill (M : JsMath) (gc : GameConstants)
    (room : GameRoom) (now : ℚ) (rand : List ℚ) :
    (checkPlayerCollisionsInRoom M gc room now rand =
      (collectCollisionDeaths M gc room).foldl (fun acc d =>
        let (room, rand, events) := acc
        let res := killPlayerInRoom M gc room d.playerId d.cause d.killerId now rand
        (res.1, res.2.1, events ++ res.2.2)) (room, rand, [])) ∧
    (∀ d ∈ collectCollisionDeaths M gc room, DeathFromAlive room d) ∧
    ((checkPlayerCollisionsInRoom M gc room now rand).1.players).map
        (fun p => (p.id, p.x, p.y)) =
      room.players.map (fun p => (p.id, p.x, p.y)) :=
  ⟨rfl, collectCollisionDeaths_sound M gc room,
   checkPlayerCollisionsInRoom_positions M gc room now rand⟩

/-- Witness for C5 at a concrete room: a two-player room where "q" stands
at the border; the computed death list is exactly the border death of "q",
whose victim is alive in the snapshot, and positions are untouched. -/
theorem C5_witness :
    collectCollisionDeaths qMath GAME_CONSTANTS
      { baseRoom with players :=
          [{ basePlayer with x := 1005 }, { basePlayer with id := "q", x := 5 }] } =
      [⟨"q", DeathCause.world_border, none⟩] ∧
    DeathFromAlive
      { baseRoom with players :=
          [{ basePlayer with x := 1005 }, { basePlayer with id := "q", x := 5 }] }
      ⟨"q", DeathCause.world_border, none⟩ := by
  have hdeaths : collectCollisionDeaths qMath GAME_CONSTANTS
      { baseRoom with players :=
          [{ basePlayer with x := 1005 }, { basePlayer with id := "q", x := 5 }] } =
      [⟨"q", DeathCause.world_border, none⟩] := by
    norm_num [collectCollisionDeaths, collideOthers, isAtWorldBorder, jsDistance,
      qMath, qSqrt, basePlayer, baseRoom, zeroInput,
      PLAYER_CONFIG, GAME_CONSTANTS, WORLD_WIDTH, WORLD_HEIGHT, List.filter]
  refine ⟨hdeaths, ?_⟩
  exact (C5_collision_checks_snapshot_then_kill qMath GAME_CONSTANTS
    { baseRoom with players :=
        [{ basePlayer with x := 1005 }, { basePlayer with id := "q", x := 5 }] } 0 []).2.1
    ⟨"q", DeathCause.world_border, none⟩ (by rw [hdeaths]; simp)

/-! ## C10: `killPlayerInRoom` is a no-op on an already dead player -/

/-- C10.  `killPlayerInRoom` on a player whose `alive` flag is already
`false` changes nothing: the room is returned unchanged (no pellets
spawned, no kill credited, no respawn timer written), the random stream is
not consumed, and no death event is emitted.  Hence the duplicate death
entries a head-to-head collision can enqueue for one player in a single
tick apply that player's death effects exactly once. -/
theorem C10_kill_dead_player_noop (M : JsMath) (gc : GameConstants)
    (room : GameRoom) (pid : String) (cause : DeathCause) (kid : Option String)
    (now : ℚ) (rand : List ℚ) (player : ServerPlayerState)
    (h1 : room.getPlayer pid = some player) (h2 : player.alive = false) :
    killPlayerInRoom M gc room pid cause kid now rand = (room, rand, []) :=
  killPlayerInRoom_dead_noop M gc room pid cause kid now rand player h1 h2

/-- Witness for C10: killing a concrete dead player is the identity. -/
theorem C10_witness :
    killPlayerInRoom qMath GAME_CONSTANTS
      { baseRoom with players := [{ basePlayer with alive := false }] }
      "p" DeathCause.head_to_head (some "q") 123 [] =
      ({ baseRoom with players := [{ basePlayer with alive := false }] }, [], []) :=
  C10_kill_dead_player_noop qMath GAME_CONSTANTS _ "p" DeathCause.head_to_head
    (some "q") 123 [] { basePlayer with alive := false } (by decide) rfl

/-! ## C3: body length growth bound -/

theorem calcInner_segIdx_le (curr : PositionRecord)
    (dx dy sd rs cl da : ℚ) (segIdx : ℕ) (acc : List BodySegmentM)
    (B : ℕ) (hcl : cl ≤ (B : ℚ)) (hs : segIdx ≤ B) :
    (calcInner curr dx dy sd rs cl da segIdx acc).2.1 ≤ B := by
  induction da, segIdx, acc using calcInner.induct curr dx dy sd rs cl with
  | case1 da segIdx acc h o1 t1 ih =>
    rw [calcInner]
    rw [dif_pos h]
    exact ih (by exact_mod_cast lt_of_lt_of_le h.2 hcl)
  | case2 da segIdx acc h =>
    rw [calcInner]
    rw [dif_neg h]
    exact hs

theorem calcInner_len_eq (curr : PositionRecord)
    (dx dy sd rs cl da : ℚ) (segIdx : ℕ) (acc : List BodySegmentM)
    (h : acc.length = segIdx) :
    (calcInner curr dx dy sd rs cl da segIdx acc).2.2.length =
      (calcInner curr dx dy sd rs cl da segIdx acc).2.1 := by
  induction da, segIdx, acc using calcInner.induct curr dx dy sd rs cl with
  | case1 da segIdx acc hcond o1 t1 ih =>
    rw [calcInner]
    rw [dif_pos hcond]
    exact ih (by simp [h])
  | case2 da segIdx acc hcond =>
    rw [calcInner]
    rw [dif_neg hcond]
    exact h

theorem calcOuter_len_le (M : JsMath) (gc : GameConstants) (cl : ℚ)
    (B : ℕ) (hcl : cl ≤ (B : ℚ)) :
    ∀ (rest : List PositionRecord) (prev : PositionRecord) (da : ℚ)
      (segIdx : ℕ) (acc : List BodySegmentM),
      acc.length = segIdx → segIdx ≤ B →
      (calcOuter M gc cl rest prev da segIdx acc).length ≤ B := by
  intro rest
  induction rest with
  | nil => intro prev da segIdx acc hlen hle; simpa [calcOuter, hlen] using hle
  | cons curr rest ih =>
    intro prev da segIdx acc hlen hle
    unfold calcOuter
    split
    · exact ih curr _ _ _
        ((calcInner_len_eq _ _ _ _ _ _ _ _ _ hlen).symm ▸ rfl)
        (calcInner_segIdx_le _ _ _ _ _ _ _ _ _ B hcl hle)
    · simpa [hlen] using hle

/-- The segment sampler emits at most one segment more than the previous
tick's count, whatever the target length, the history, or the oracle. -/
theorem calculateBodySegments_growth (M : JsMath) (gc : GameConstants)
    (player : ServerPlayerState) :
    (calculateBodySegments M gc player).length ≤ player.bodySegments.length + 1 := by
  unfold calculateBodySegments
  split
  · simp
  · split
    · simp
    · simp
    · refine calcOuter_len_le M gc _ (player.bodySegments.length + 1) ?_ _ _ _ _ _ rfl
        (by simp)
      push_cast
      exact min_le_left _ _

/-- C3 counterexample fixture: an alive player with two body segments
standing inside the world-border death margin (`x = 5 ≤ 10`), zero input. -/
def c3Player : ServerPlayerState :=
  { basePlayer with
    x := 5, y := 3000,
    bodySegments := [BodySegmentM.mk 100 3000, BodySegmentM.mk 122 3000],
    targetLength := 2 }

def c3Room : GameRoom := { baseRoom with players := [c3Player] }

/-- `c3Room` after the tick-counter increment. -/
def c3R0 : GameRoom := { baseRoom with players := [c3Player], currentTick := 1 }

/-- The player after the movement/history/segments/boost phase of the tick. -/
def c3P1 : ServerPlayerState :=
  { basePlayer with
    x := 5, y := 3000, targetLength := 2,
    positionHistory := [PositionRecord.mk 5 3000 100000] }

def c3R1 : GameRoom := { baseRoom with players := [c3P1], currentTick := 1 }

/-- The player after dying on the world border in the collision phase. -/
def c3P2 : ServerPlayerState :=
  { basePlayer with
    x := 5, y := 3000, targetLength := 0, alive := false,
    respawnTime := 102000 }

def c3R2 : GameRoom :=
  { baseRoom with
    players := [c3P2], currentTick := 1,
    food := [Hitodama.mk "room-1-food-0" 40 3000 2 8], foodIdCounter := 1 }

/-- The room at the end of the tick (food maintenance spawned one pellet). -/
def c3R3 : GameRoom :=
  { baseRoom with
    players := [c3P2], currentTick := 1,
    food := [Hitodama.mk "room-1-food-0" 40 3000 2 8,
             Hitodama.mk "room-1-food-1" 3000 3000 1 8], foodIdCounter := 2 }

set_option maxHeartbeats 1600000 in
/-- C3 counterexample.  The claim asserts the per-tick change of
`currentBodyLength` is at most 1 "regardless of … dying".  Here a player
enters the tick with 2 body segments, dies on the world border during that
same tick, and leaves the tick with 0 body segments: the count changed by
2 > 1 within one `gameLoop` tick. -/
theorem C3_counterexample :
    c3Player.bodySegments.length = 2 ∧
    ((roomTick qMath GAME_CONSTANTS c3Room 100000 []).1.getPlayer "p").map
      (fun p => p.bodySegments.length) = some 0 ∧
    ¬ (((2 : ℤ) - 0).natAbs ≤ 1) := by
  refine ⟨rfl, ?_, by decide⟩
  have hR : checkRespawnsInRoom qMath GAME_CONSTANTS c3R0 100000 [] =
      (c3R0, [], []) := by
    norm_num [checkRespawnsInRoom, GameRoom.getPlayer, c3R0, c3Player, basePlayer,
      baseRoom]
  have hP : playerUpdatePhase qMath GAME_CONSTANTS c3R0 (1000 / TICK_RATE / 1000)
      100000 [] = (c3R1, []) := by
    norm_num [playerUpdatePhase, GameRoom.getPlayer, GameRoom.updatePlayer,
      updatePlayerMovement, updatePositionHistory, trimHistory, calculateBodySegments,
      handleBoostDropInRoom, qMath, qSqrt, clamp, min_def, max_def,
      c3R0, c3Player, c3P1, c3R1, basePlayer, baseRoom, zeroInput,
      PLAYER_CONFIG, GAME_CONSTANTS, WORLD_WIDTH, WORLD_HEIGHT, TICK_RATE]
  have hC : checkPlayerCollisionsInRoom qMath GAME_CONSTANTS c3R1 100000 [] =
      (c3R2, [], [GameEvent.playerDied
        (DeathEvent.mk "p" DeathCause.world_border none none 5 3000 0 1)]) := by
    have hts : ("room-1" ++ "-food-" ++ toString (0 : ℕ)) = "room-1-food-0" := rfl
    norm_num [checkPlayerCollisionsInRoom, collectCollisionDeaths, collideOthers,
      isAtWorldBorder, killPlayerInRoom, deathDropSegments, deathDropHead,
      spawnFoodInRoom, GameRoom.getPlayer, GameRoom.updatePlayer,
      GameRoom.getNextFoodId, randNext, jsDistance, qMath, qSqrt, min_def, max_def,
      List.filter, hts, List.range_succ, List.range_zero,
      c3P1, c3R1, c3P2, c3R2, basePlayer, baseRoom, zeroInput,
      PLAYER_CONFIG, GAME_CONSTANTS, WORLD_WIDTH, WORLD_HEIGHT, MATH_PI]
  have hM : updateFoodMagnetismInRoom qMath GAME_CONSTANTS c3R2
      (1000 / TICK_RATE / 1000) = c3R2 := by
    norm_num [updateFoodMagnetismInRoom, c3R2, c3P2, basePlayer, baseRoom]
  have hF : checkFoodCollisionsInRoom qMath GAME_CONSTANTS c3R2 = (c3R2, []) := by
    norm_num [checkFoodCollisionsInRoom, GameRoom.getPlayer, c3R2, c3P2, basePlayer,
      baseRoom]
  have hLoc : findSpawnLocationInRoom qMath c3R2 [] = ((3000, 3000), []) := by
    norm_num [findSpawnLocationInRoom, spawnAttempts, randNext, qMath, qSqrt,
      jsDistance, FOOD_CONFIG, WORLD_WIDTH, WORLD_HEIGHT, c3R2, c3P2, basePlayer,
      baseRoom]
  have hMF : maintainFoodCountInRoom qMath GAME_CONSTANTS c3R2 [] = (c3R3, []) := by
    have hts : ("room-1" ++ "-food-" ++ toString (1 : ℕ)) = "room-1-food-1" := rfl
    have e1 : c3R2.food = [Hitodama.mk "room-1-food-0" 40 3000 2 8] := rfl
    have e2 : c3R2.players = [c3P2] := rfl
    have e3 : c3R2.id = "room-1" := rfl
    have e4 : c3R2.foodIdCounter = 1 := rfl
    have e5 : c3R2.currentTick = 1 := rfl
    have e6 : c3P2.alive = false := rfl
    norm_num [maintainFoodCountInRoom, hLoc,
      spawnFoodInRoom, GameRoom.getNextFoodId, randNext,
      e1, e2, e3, e4, e5, e6, List.filter, hts, List.range_succ, List.range_zero,
      c3R3, baseRoom, GAME_CONSTANTS, FOOD_CONFIG, WORLD_WIDTH, WORLD_HEIGHT,
      GameRoom.mk.injEq]
  have h0 : ({ c3Room with currentTick := c3Room.currentTick + 1 } : GameRoom) =
      c3R0 := rfl
  unfold roomTick
  rw [h0]
  dsimp only
  rw [hR]
  dsimp only
  rw [hP]
  dsimp only
  rw [hC]
  dsimp only
  rw [hM, hF, hMF]
  rfl

/-! ## C9: idle drag decay scenario -/

/-- The scenario entity: at (1000, 1000), speed 50, zero input. -/
def c9Player : ServerPlayerState := { basePlayer with currentSpeed := 50, speed := 50 }

/-- `n` server ticks of `updatePlayerMovement` at 20 Hz with zero input. -/
def idleIter (n : ℕ) : ServerPlayerState :=
  (fun p => updatePlayerMovement qMath GAME_CONSTANTS p (1 / 20))^[n] c9Player

theorem idleIter_invariant (n : ℕ) :
    (idleIter n).currentSpeed = 50 * (19 / 20) ^ n ∧
    (idleIter n).alive = true ∧ (idleIter n).input = zeroInput := by
  induction n with
  | zero =>
    refine ⟨?_, rfl, rfl⟩
    norm_num [idleIter, c9Player, basePlayer]
  | succ n ih =>
    obtain ⟨hs, ha, hi⟩ := ih
    have hstep : idleIter (n + 1) =
        updatePlayerMovement qMath GAME_CONSTANTS (idleIter n) (1 / 20) := by
      unfold idleIter
      rw [Function.iterate_succ_apply']
    rw [hstep]
    unfold updatePlayerMovement
    rw [ha, hi]
    norm_num [qMath, qSqrt, zeroInput]
    rw [hs]
    ring

/-- C9 (amended): starting from speed 50 with zero input (inside the 0.05
deadzone) for 60 server ticks at 20 Hz, the speed is multiplied by the drag
factor 0.95 each tick, so it decreases strictly monotonically (no
oscillation) and after 3 seconds equals `50·0.95⁶⁰ ≈ 2.30` — within 2.5 of
zero (but, per the counterexample, not within the claimed 0.5). -/
theorem C9_idle_drag_decay :
    (∀ k : ℕ, (idleIter (k + 1)).currentSpeed < (idleIter k).currentSpeed) ∧
    (idleIter 60).currentSpeed = 50 * (19 / 20) ^ 60 ∧
    |(idleIter 60).currentSpeed - 0| ≤ 5 / 2 := by
  have hmono : ∀ k : ℕ, (idleIter (k + 1)).currentSpeed < (idleIter k).currentSpeed := by
    intro k
    rw [(idleIter_invariant k).1, (idleIter_invariant (k + 1)).1]
    have hp : (0 : ℚ) < (19 / 20) ^ k := by positivity
    calc (50 : ℚ) * (19 / 20) ^ (k + 1) = 50 * (19 / 20) ^ k * (19 / 20) := by ring
    _ < 50 * (19 / 20) ^ k * 1 := by
        have : (0:ℚ) < 50 * (19 / 20) ^ k := by positivity
        exact mul_lt_mul_of_pos_left (by norm_num) this
    _ = 50 * (19 / 20) ^ k := by ring
  refine ⟨hmono, (idleIter_invariant 60).1, ?_⟩
  rw [(idleIter_invariant 60).1]
  rw [abs_of_nonneg (by positivity)]
  rw [div_pow, sub_zero, ← mul_div_assoc]
  rw [div_le_iff (by positivity)]
  norm_num

/-- Witness for C9 at a concrete step: tick 4 is strictly slower than
tick 3. -/
theorem C9_witness : (idleIter 4).currentSpeed < (idleIter 3).currentSpeed :=
  C9_idle_drag_decay.1 3

/-- C9 counterexample.  The claim requires the speed after 3 idle seconds
to be within 0.5 of 0; actually `50·0.95⁶⁰ = 2.30… > 0.5`. -/
theorem C9_counterexample :
    (idleIter 60).currentSpeed = 50 * (19 / 20) ^ 60 ∧
    ¬ |(idleIter 60).currentSpeed - 0| ≤ 1 / 2 := by
  refine ⟨(idleIter_invariant 60).1, ?_⟩
  rw [(idleIter_invariant 60).1]
  rw [abs_of_nonneg (by positivity)]
  rw [not_le, div_pow, sub_zero, ← mul_div_assoc]
  rw [lt_div_iff (by positivity)]
  norm_num

/-! ## C8: interpolation factor bounds and pre-buffer rendering -/

theorem findInterpolationSnapshots_t_bounds (si : SnapshotInterpolation)
    (renderTime : ℚ) :
    0 ≤ (findInterpolationSnapshots si renderTime).2.2 ∧
      (findInterpolationSnapshots si renderTime).2.2 ≤ 1 := by
  unfold findInterpolationSnapshots
  split
  · simp
  · dsimp only
    split
    · split
      · constructor
        · exact le_min (by norm_num) (le_max_left 0 _)
        · exact min_le_left _ _
      · simp
    · simp
    · simp

/-- When the render time precedes every buffered snapshot, `findPair`
returns no `before` and breaks at the head. -/
theorem findPair_all_late (renderTime : ℚ) (first : GameSnapshotM)
    (rest : List GameSnapshotM) (h : renderTime < first.serverTime) :
    findPair renderTime (first :: rest) none = (none, some first) := by
  unfold findPair
  rw [if_neg (by exact not_le.mpr h)]

/-- C8 (amended).  The interpolation factor `t` computed by
`findInterpolationSnapshots` always lies in [0, 1] (first conjunct, exactly
as claimed).  But when the render time is earlier than every buffered
snapshot, the rendered values are taken verbatim from the *newest* buffered
snapshot (`snapshots[snapshots.length - 1]`), not clamped at the oldest one
(second conjunct); no extrapolation outside buffered values occurs. -/
theorem C8_interpolation_bounds (si : SnapshotInterpolation) (renderTime : ℚ)
    (excludePlayerId : Option String) :
    (0 ≤ (findInterpolationSnapshots si renderTime).2.2 ∧
      (findInterpolationSnapshots si renderTime).2.2 ≤ 1) ∧
    (∀ first rest, si.snapshots = first :: rest →
      (∀ s ∈ si.snapshots, renderTime < s.serverTime) →
      ∀ last, si.snapshots.getLast? = some last →
      ∀ pid ip, (pid, ip) ∈ getInterpolatedPlayers si excludePlayerId renderTime →
        ∃ ps ∈ last.players, ps.id = pid ∧ ip = playerStateToInterpolated ps) := by
  refine ⟨findInterpolationSnapshots_t_bounds si renderTime, ?_⟩
  intro first rest hsnap hlate last hlast pid ip hmem
  have hfind : findInterpolationSnapshots si renderTime = (some first, none, 0) := by
    unfold findInterpolationSnapshots
    split
    · simp_all
    · rename_i first' rest' heq
      rw [hsnap] at heq
      obtain ⟨rfl, rfl⟩ := by exact Prod.mk.injEq .. ▸ (by injection heq; constructor <;> assumption : first = first' ∧ rest = rest')
      rw [hsnap, findPair_all_late renderTime first rest
        (hlate first (by simp [hsnap]))]
  rw [getInterpolatedPlayers, hfind] at hmem
  dsimp only at hmem
  rw [hlast] at hmem
  revert hmem
  refine foldl_inv_mem _ (fun (acc : List (String × InterpolatedPlayer)) =>
      (pid, ip) ∈ acc →
      ∃ ps ∈ last.players, ps.id = pid ∧ ip = playerStateToInterpolated ps) _
    (fun acc player hpmem hacc => ?_) _ (by simp)
  dsimp only
  split
  · exact hacc
  · intro hm
    rcases List.mem_append.mp hm with hm | hm
    · exact hacc hm
    · rcases List.mem_cons.mp hm with h | hm
      · obtain ⟨h1, h2⟩ := Prod.mk.injEq .. ▸ h
        exact ⟨player, hpmem, by rw [h1], by rw [h2]⟩
      · simp at hm

/-- Witness for C8's hypotheses at a concrete buffer. -/
def c8PS (px : ℚ) : PlayerStateM :=
  { id := "a", name := "a", x := px, y := 0, angle := 0, speed := 0, score := 0,
    bodySegments := [], targetLength := 0, lastProcessedInput := 0, alive := true,
    kills := 0 }

def c8Snap1 : GameSnapshotM :=
  { players := [c8PS 0], food := [], scoreboard := [], serverTime := 100, tick := 1 }

def c8Snap2 : GameSnapshotM :=
  { players := [c8PS 100], food := [], scoreboard := [], serverTime := 200, tick := 2 }

def c8SI : SnapshotInterpolation :=
  { snapshots := [c8Snap1, c8Snap2], serverTimeOffset := 0, rtt := 0 }

theorem C8_witness :
    (0 ≤ (findInterpolationSnapshots c8SI 50).2.2 ∧
      (findInterpolationSnapshots c8SI 50).2.2 ≤ 1) ∧
    ∃ ps ∈ c8Snap2.players, ps.id = "a" ∧
      playerStateToInterpolated (c8PS 100) = playerStateToInterpolated ps := by
  have h := C8_interpolation_bounds c8SI 50 none
  refine ⟨h.1, ?_⟩
  refine h.2 c8Snap1 [c8Snap2] rfl (by norm_num [c8SI, c8Snap1, c8Snap2])
    c8Snap2 rfl "a" (playerStateToInterpolated (c8PS 100)) ?_
  decide

/-- C8 counterexample.  With snapshots at server times 100 (player at
x = 0) and 200 (player at x = 100) and render time 50 — earlier than the
oldest snapshot — the code renders the player at x = 100, the *newest*
snapshot's value, not the oldest snapshot's x = 0 as the claim's
"never extrapolate beyond the oldest snapshot's values" requires. -/
theorem C8_counterexample :
    getInterpolatedPlayers c8SI none 50 =
      [("a", playerStateToInterpolated (c8PS 100))] ∧
    (c8PS 100).x = 100 ∧ (c8PS 0).x = 0 ∧
    (∀ s ∈ c8SI.snapshots, (50 : ℚ) < s.serverTime) ∧
    playerStateToInterpolated (c8PS 100) ≠ playerStateToInterpolated (c8PS 0) := by
  exact ⟨by decide, rfl, rfl, by norm_num [c8SI, c8Snap1, c8Snap2], by decide⟩

/-! ## C4: head-to-head collision resolution -/

theorem jsDistance_comm (M : JsMath) (x1 y1 x2 y2 : ℚ) :
    jsDistance M x2 y2 x1 y1 = jsDistance M x1 y1 x2 y2 := by
  unfold jsDistance
  congr 1
  ring

theorem getPlayer_pair (rid : String) (food : List Hitodama) (tick ctr : ℕ)
    (P Q : ServerPlayerState) (pid : String) :
    GameRoom.getPlayer ⟨rid, [P, Q], food, tick, ctr⟩ pid =
      if P.id = pid then some P else if Q.id = pid then some Q else none := by
  by_cases h1 : P.id = pid <;> by_cases h2 : Q.id = pid <;>
    simp [GameRoom.getPlayer, List.find?, h1, h2]

/-- The death list computed for a two-player room whose alive players A, B
(distinct ids, neither at the border) stand head-to-head. -/
theorem collectDeaths_head_to_head (M : JsMath) (gc : GameConstants)
    (rid : String) (food : List Hitodama) (tick ctr : ℕ)
    (A B : ServerPlayerState) (hid : A.id ≠ B.id)
    (hA : A.alive = true) (hB : B.alive = true)
    (hbA : isAtWorldBorder A = false) (hbB : isAtWorldBorder B = false)
    (hdist : jsDistance M A.x A.y B.x B.y < PLAYER_CONFIG.RADIUS * 2) :
    collectCollisionDeaths M gc (⟨rid, [A, B], food, tick, ctr⟩ : GameRoom) =
      if gc.HEAD_COLLISION_BOTH_DIE then
        [⟨A.id, .head_to_head, some B.id⟩, ⟨B.id, .head_to_head, some A.id⟩]
      else if A.bodySegments.length < B.bodySegments.length then
        [⟨A.id, .head_to_head, some B.id⟩, ⟨A.id, .head_to_head, some B.id⟩]
      else if B.bodySegments.length < A.bodySegments.length then
        [⟨B.id, .head_to_head, some A.id⟩]
      else
        [⟨A.id, .head_to_head, some B.id⟩, ⟨B.id, .head_to_head, some A.id⟩] := by
  have hd2 : jsDistance M B.x B.y A.x A.y < PLAYER_CONFIG.RADIUS * 2 := by
    rw [jsDistance_comm]; exact hdist
  have hBA : (B.id = A.id) = False := by simp [Ne.symm hid]
  have hAB : (A.id = B.id) = False := by simp [hid]
  -- A's inner pass over [A, B]
  have eA : collideOthers M gc A [A, B] [] =
      (if gc.HEAD_COLLISION_BOTH_DIE then
        [⟨A.id, .head_to_head, some B.id⟩, ⟨B.id, .head_to_head, some A.id⟩]
      else if A.bodySegments.length ≤ B.bodySegments.length then
        if B.bodySegments.length ≤ A.bodySegments.length then
          [⟨A.id, .head_to_head, some B.id⟩, ⟨B.id, .head_to_head, some A.id⟩]
        else [⟨A.id, .head_to_head, some B.id⟩]
      else [⟨B.id, .head_to_head, some A.id⟩]) := by
    rw [collideOthers, if_pos rfl]
    rw [collideOthers]
    rw [if_neg (fun h => hid h.symm)]
    rw [if_neg (by simp)]
    rw [if_pos hdist]
    by_cases hflag : gc.HEAD_COLLISION_BOTH_DIE = true
    · simp only [hflag, ite_true]
      rw [collideOthers]
      simp
    · have hflag' : gc.HEAD_COLLISION_BOTH_DIE = false := by simpa using hflag
      simp only [hflag', Bool.false_eq_true, ite_false]
      by_cases h1 : A.bodySegments.length ≤ B.bodySegments.length <;>
        by_cases h2 : B.bodySegments.length ≤ A.bodySegments.length
      · rw [if_pos h1, if_pos h2]
        rw [collideOthers]
        simp [h1, h2]
      · rw [if_pos h1, if_neg h2]
        rw [collideOthers]
        simp [h1, h2]
      · rw [if_neg h1, if_pos h2]
        rw [collideOthers]
        simp [h1, h2]
      · omega
  unfold collectCollisionDeaths
  simp only [List.filter, hA, hB, List.foldl_cons, List.foldl_nil]
  by_cases hflag : gc.HEAD_COLLISION_BOTH_DIE = true
  · simp [eA, hflag, hbA, hAB, hBA]
  · have hflag' : gc.HEAD_COLLISION_BOTH_DIE = false := by simpa using hflag
    by_cases h1 : A.bodySegments.length ≤ B.bodySegments.length <;>
      by_cases h2 : B.bodySegments.length ≤ A.bodySegments.length
    · have heq : A.bodySegments.length = B.bodySegments.length := le_antisymm h1 h2
      simp [eA, hflag', h1, h2, hbA, hAB, hBA,
        show ¬ A.bodySegments.length < B.bodySegments.length by omega,
        show ¬ B.bodySegments.length < A.bodySegments.length by omega]
    · have hlt : A.bodySegments.length < B.bodySegments.length := by omega
      have eB : collideOthers M gc B [A, B]
          [⟨A.id, .head_to_head, some B.id⟩] =
          [⟨A.id, .head_to_head, some B.id⟩, ⟨A.id, .head_to_head, some B.id⟩] := by
        rw [collideOthers]
        rw [if_neg (fun h => hid h)]
        rw [if_neg (by simp [hAB])]
        dsimp only
        rw [if_pos hd2]
        simp only [hflag', Bool.false_eq_true, ite_false]
        rw [if_pos h1, if_neg (by omega : ¬ B.bodySegments.length ≤ A.bodySegments.length)]
        rw [collideOthers, if_pos rfl]
        simp [collideOthers]
      simp [eA, eB, hflag', h1, h2, hbA, hbB, hAB, hBA, hlt]
    · have hlt : B.bodySegments.length < A.bodySegments.length := by omega
      simp [eA, hflag', h1, h2, hbA, hAB, hBA, hlt,
        show ¬ A.bodySegments.length < B.bodySegments.length by omega]
    · omega

/-- Record shape of a freshly killed player. -/
def deadRec (gc : GameConstants) (now : ℚ) (p : ServerPlayerState) : ServerPlayerState :=
  { p with alive := false, respawnTime := now + gc.RESPAWN_DELAY,
           bodySegments := [], targetLength := 0, positionHistory := [] }

/-- Record shape of a credited killer. -/
def creditRec (q : ServerPlayerState) : ServerPlayerState :=
  { q with kills := q.kills + 1 }

theorem getPlayer_of_players (room : GameRoom) (P Q : ServerPlayerState)
    (hplayers : room.players = [P, Q]) (pid : String) :
    room.getPlayer pid =
      if P.id = pid then some P else if Q.id = pid then some Q else none := by
  rw [GameRoom.getPlayer, hplayers]
  by_cases h1 : P.id = pid <;> by_cases h2 : Q.id = pid <;>
    simp [List.find?, h1, h2]

theorem kill_players_victim_first (M : JsMath) (gc : GameConstants)
    (room : GameRoom) (P Q : ServerPlayerState) (cause : DeathCause)
    (now : ℚ) (rand : List ℚ) (hplayers : room.players = [P, Q])
    (hid : P.id ≠ Q.id) (hP : P.alive = true) :
    (killPlayerInRoom M gc room P.id cause (some Q.id) now rand).1.players =
      [deadRec gc now P, creditRec Q] := by
  have hget := getPlayer_of_players room P Q hplayers
  have hgP : room.getPlayer P.id = some P := by rw [hget]; simp
  rw [killPlayerInRoom_players_eq M gc room P.id cause (some Q.id) now rand P hgP hP]
  rw [hplayers]
  have hgQ : (some Q.id).bind room.getPlayer = some Q := by
    show room.getPlayer Q.id = some Q
    rw [hget]
    simp [hid]
  rw [hgQ]
  simp [hid, Ne.symm hid, deadRec, creditRec]

theorem kill_players_victim_second (M : JsMath) (gc : GameConstants)
    (room : GameRoom) (P Q : ServerPlayerState) (cause : DeathCause)
    (now : ℚ) (rand : List ℚ) (hplayers : room.players = [P, Q])
    (hid : P.id ≠ Q.id) (hQ : Q.alive = true) :
    (killPlayerInRoom M gc room Q.id cause (some P.id) now rand).1.players =
      [creditRec P, deadRec gc now Q] := by
  have hget := getPlayer_of_players room P Q hplayers
  have hgQ : room.getPlayer Q.id = some Q := by rw [hget]; simp [hid]
  rw [killPlayerInRoom_players_eq M gc room Q.id cause (some P.id) now rand Q hgQ hQ]
  rw [hplayers]
  have hgP : (some P.id).bind room.getPlayer = some P := by
    show room.getPlayer P.id = some P
    rw [hget]
    simp
  rw [hgP]
  simp [hid, Ne.symm hid, deadRec, creditRec]

/-- C4.  In a room whose alive players are exactly A and B (distinct ids,
neither at the world border) with head-to-head distance below
`2·headRadius` at collision-check time: when `HEAD_COLLISION_BOTH_DIE` is
`true` both are marked dead in the same tick; when it is `false`, the
player with strictly fewer body segments is marked dead and the player
with strictly more survives, and equal segment counts are resolved by both
dying (the tie-break the code and spec document). -/
theorem C4_head_to_head_resolution (M : JsMath) (gc : GameConstants)
    (rid : String) (food : List Hitodama) (tick ctr : ℕ)
    (A B : ServerPlayerState) (now : ℚ) (rand : List ℚ)
    (hid : A.id ≠ B.id) (hA : A.alive = true) (hB : B.alive = true)
    (hbA : isAtWorldBorder A = false) (hbB : isAtWorldBorder B = false)
    (hdist : jsDistance M A.x A.y B.x B.y < PLAYER_CONFIG.RADIUS * 2) :
    (gc.HEAD_COLLISION_BOTH_DIE = true →
      ((checkPlayerCollisionsInRoom M gc ⟨rid, [A, B], food, tick, ctr⟩ now rand).1.getPlayer
          A.id).map (fun p => p.alive) = some false ∧
      ((checkPlayerCollisionsInRoom M gc ⟨rid, [A, B], food, tick, ctr⟩ now rand).1.getPlayer
          B.id).map (fun p => p.alive) = some false) ∧
    (gc.HEAD_COLLISION_BOTH_DIE = false →
      (A.bodySegments.length < B.bodySegments.length →
        ((checkPlayerCollisionsInRoom M gc ⟨rid, [A, B], food, tick, ctr⟩ now rand).1.getPlayer
            A.id).map (fun p => p.alive) = some false ∧
        ((checkPlayerCollisionsInRoom M gc ⟨rid, [A, B], food, tick, ctr⟩ now rand).1.getPlayer
            B.id).map (fun p => p.alive) = some true) ∧
      (B.bodySegments.length < A.bodySegments.length →
        ((checkPlayerCollisionsInRoom M gc ⟨rid, [A, B], food, tick, ctr⟩ now rand).1.getPlayer
            A.id).map (fun p => p.alive) = some true ∧
        ((checkPlayerCollisionsInRoom M gc ⟨rid, [A, B], food, tick, ctr⟩ now rand).1.getPlayer
            B.id).map (fun p => p.alive) = some false) ∧
      (A.bodySegments.length = B.bodySegments.length →
        ((checkPlayerCollisionsInRoom M gc ⟨rid, [A, B], food, tick, ctr⟩ now rand).1.getPlayer
            A.id).map (fun p => p.alive) = some false ∧
        ((checkPlayerCollisionsInRoom M gc ⟨rid, [A, B], food, tick, ctr⟩ now rand).1.getPlayer
            B.id).map (fun p => p.alive) = some false)) := by
  have hdeaths := collectDeaths_head_to_head M gc rid food tick ctr A B hid hA hB
    hbA hbB hdist
  constructor
  · intro hflag
    rw [hflag] at hdeaths
    simp only [ite_true] at hdeaths
    unfold checkPlayerCollisionsInRoom
    rw [hdeaths, List.foldl_cons, List.foldl_cons, List.foldl_nil]
    dsimp only
    have h1 := kill_players_victim_first M gc
      (⟨rid, [A, B], food, tick, ctr⟩ : GameRoom) A B .head_to_head now rand rfl hid hA
    have h2 := kill_players_victim_second M gc _ (deadRec gc now A) (creditRec B)
      .head_to_head now
      (killPlayerInRoom M gc (⟨rid, [A, B], food, tick, ctr⟩ : GameRoom)
        A.id .head_to_head (some B.id) now rand).2.1
      h1 (show (deadRec gc now A).id ≠ (creditRec B).id from hid)
      (show (creditRec B).alive = true from hB)
    rw [show (creditRec B).id = B.id from rfl,
        show (deadRec gc now A).id = A.id from rfl] at h2
    constructor
    · rw [getPlayer_of_players _ _ _ h2]
      simp [creditRec, deadRec]
    · rw [getPlayer_of_players _ _ _ h2]
      simp [creditRec, deadRec, Ne.symm hid, hid]
  · intro hflag
    rw [hflag] at hdeaths
    simp only [Bool.false_eq_true, ite_false] at hdeaths
    refine ⟨?_, ?_, ?_⟩
    · intro hlt
      rw [if_pos hlt] at hdeaths
      unfold checkPlayerCollisionsInRoom
      rw [hdeaths, List.foldl_cons, List.foldl_cons, List.foldl_nil]
      dsimp only
      have h1 := kill_players_victim_first M gc
        (⟨rid, [A, B], food, tick, ctr⟩ : GameRoom) A B .head_to_head now rand rfl hid hA
      have hgA : (killPlayerInRoom M gc (⟨rid, [A, B], food, tick, ctr⟩ : GameRoom)
          A.id .head_to_head (some B.id) now rand).1.getPlayer A.id =
          some (deadRec gc now A) := by
        rw [getPlayer_of_players _ _ _ h1]
        simp [deadRec]
      have h2 := killPlayerInRoom_dead_noop M gc _ A.id .head_to_head (some B.id) now
        (killPlayerInRoom M gc (⟨rid, [A, B], food, tick, ctr⟩ : GameRoom)
          A.id .head_to_head (some B.id) now rand).2.1
        (deadRec gc now A) hgA (by simp [deadRec])
      rw [h2]
      constructor
      · rw [getPlayer_of_players _ _ _ h1]
        simp [deadRec]
      · rw [getPlayer_of_players _ _ _ h1]
        simp [deadRec, creditRec, Ne.symm hid, hid, hB]
    · intro hlt
      rw [if_neg (by omega), if_pos hlt] at hdeaths
      unfold checkPlayerCollisionsInRoom
      rw [hdeaths, List.foldl_cons, List.foldl_nil]
      dsimp only
      have h1 := kill_players_victim_second M gc
        (⟨rid, [A, B], food, tick, ctr⟩ : GameRoom) A B .head_to_head now rand rfl hid hB
      constructor
      · rw [getPlayer_of_players _ _ _ h1]
        simp [creditRec, hA]
      · rw [getPlayer_of_players _ _ _ h1]
        simp [creditRec, deadRec, Ne.symm hid, hid]
    · intro heq
      rw [if_neg (by omega), if_neg (by omega)] at hdeaths
      unfold checkPlayerCollisionsInRoom
      rw [hdeaths, List.foldl_cons, List.foldl_cons, List.foldl_nil]
      dsimp only
      have h1 := kill_players_victim_first M gc
        (⟨rid, [A, B], food, tick, ctr⟩ : GameRoom) A B .head_to_head now rand rfl hid hA
      have h2 := kill_players_victim_second M gc _ (deadRec gc now A) (creditRec B)
        .head_to_head now
        (killPlayerInRoom M gc (⟨rid, [A, B], food, tick, ctr⟩ : GameRoom)
          A.id .head_to_head (some B.id) now rand).2.1
        h1 (show (deadRec gc now A).id ≠ (creditRec B).id from hid)
        (show (creditRec B).alive = true from hB)
      rw [show (creditRec B).id = B.id from rfl,
          show (deadRec gc now A).id = A.id from rfl] at h2
      constructor
      · rw [getPlayer_of_players _ _ _ h2]
        simp [creditRec, deadRec]
      · rw [getPlayer_of_players _ _ _ h2]
        simp [creditRec, deadRec, Ne.symm hid, hid]

/-- Second player for the C4 witness: 30 px to the right of `basePlayer`,
well inside the world, same (empty) body. -/
def c4Q : ServerPlayerState :=
  { basePlayer with
    id := "q", name := "q", x := 1030 }

theorem C4_witness :
    ((checkPlayerCollisionsInRoom qMath GAME_CONSTANTS
        ⟨"room-1", [basePlayer, c4Q], [], 0, 0⟩ 0 []).1.getPlayer
        basePlayer.id).map (fun p => p.alive) = some false ∧
    ((checkPlayerCollisionsInRoom qMath GAME_CONSTANTS
        ⟨"room-1", [basePlayer, c4Q], [], 0, 0⟩ 0 []).1.getPlayer
        c4Q.id).map (fun p => p.alive) = some false :=
  ((C4_head_to_head_resolution qMath GAME_CONSTANTS "room-1" [] 0 0 basePlayer c4Q 0 []
      (by decide) rfl rfl
      (by norm_num [isAtWorldBorder, basePlayer, c4Q, PLAYER_CONFIG,
        WORLD_WIDTH, WORLD_HEIGHT])
      (by norm_num [isAtWorldBorder, basePlayer, c4Q, PLAYER_CONFIG,
        WORLD_WIDTH, WORLD_HEIGHT])
      (by norm_num [jsDistance, qMath, qSqrt, basePlayer, c4Q,
        PLAYER_CONFIG])).2 rfl).2.2 rfl

/-! ## C6: food collection radius -/

/-- Head-to-pellet distance exactly as `checkFoodCollisionsInRoom` computes
it (`Math.sqrt(dx*dx + dy*dy)`). -/
def headFoodDist (M : JsMath) (player : ServerPlayerState) (item : Hitodama) : ℚ :=
  M.sqrt ((player.x - item.x) * (player.x - item.x) +
    (player.y - item.y) * (player.y - item.y))

/-- The pellets one player collects in one food pass: those strictly inside
the CONSTANT radius `PLAYER.RADIUS + FOOD_RADIUS`; `item.radius` is never
read by the collision check. -/
def collectedFood (M : JsMath) (gc : GameConstants) (player : ServerPlayerState)
    (food : List Hitodama) : List Hitodama :=
  food.filter (fun item =>
    headFoodDist M player item < PLAYER_CONFIG.RADIUS + gc.FOOD_RADIUS)

theorem foodFoldStep_eq (M : JsMath) (gc : GameConstants)
    (player : ServerPlayerState) (acc : ℚ × ℚ × List String × List GameEvent)
    (item : Hitodama) :
    foodFoldStep M gc player acc item =
      if headFoodDist M player item < PLAYER_CONFIG.RADIUS + gc.FOOD_RADIUS then
        (acc.1 + item.value, acc.2.1 + item.value * gc.GROWTH_PER_FOOD,
         acc.2.2.1 ++ [item.id],
         acc.2.2.2 ++ [GameEvent.foodCollected item.id player.id])
      else acc := rfl

theorem foodFold_spec (M : JsMath) (gc : GameConstants)
    (player : ServerPlayerState) (food : List Hitodama)
    (s t : ℚ) (ids : List String) (evs : List GameEvent) :
    food.foldl (foodFoldStep M gc player) (s, t, ids, evs) =
      (s + ((collectedFood M gc player food).map Hitodama.value).sum,
       t + ((collectedFood M gc player food).map
          (fun i => i.value * gc.GROWTH_PER_FOOD)).sum,
       ids ++ (collectedFood M gc player food).map Hitodama.id,
       evs ++ (collectedFood M gc player food).map
          (fun i => GameEvent.foodCollected i.id player.id)) := by
  induction food generalizing s t ids evs with
  | nil => simp [collectedFood]
  | cons a l ih =>
    rw [List.foldl_cons, foodFoldStep_eq]
    by_cases h : headFoodDist M player a < PLAYER_CONFIG.RADIUS + gc.FOOD_RADIUS
    · rw [if_pos h, ih]
      simp [collectedFood, List.filter_cons, h, add_assoc]
    · rw [if_neg h, ih]
      simp [collectedFood, List.filter_cons, h]

theorem removeIds_eq_filter (food : List Hitodama) (ids : List String) :
    ids.foldl (fun fs fid => fs.filter (fun f => f.id ≠ fid)) food =
      food.filter (fun f => ¬ f.id ∈ ids) := by
  induction ids generalizing food with
  | nil => simp
  | cons a l ih =>
    rw [List.foldl_cons, ih, List.filter_filter]
    apply List.filter_congr
    intro x hx
    simp [List.mem_cons, not_or, Bool.and_comm]

theorem mem_collected_id (M : JsMath) (gc : GameConstants)
    (player : ServerPlayerState) (food : List Hitodama)
    (hnodup : (food.map Hitodama.id).Nodup) (f : Hitodama) (hf : f ∈ food) :
    f.id ∈ (collectedFood M gc player food).map Hitodama.id ↔
      headFoodDist M player f < PLAYER_CONFIG.RADIUS + gc.FOOD_RADIUS := by
  constructor
  · intro hmem
    obtain ⟨g, hg, hgid⟩ := List.mem_map.mp hmem
    have hgfood : g ∈ food := List.mem_of_mem_filter hg
    have hgf : g = f := List.inj_on_of_nodup_map hnodup hgfood hf hgid
    have hc := List.of_mem_filter hg
    rw [hgf] at hc
    simpa using hc
  · intro h
    exact List.mem_map.mpr
      ⟨f, List.mem_filter.mpr ⟨hf, by simpa using h⟩, rfl⟩

theorem updatePlayer_food (room : GameRoom) (pid : String)
    (f : ServerPlayerState → ServerPlayerState) :
    (room.updatePlayer pid f).food = room.food := rfl

theorem checkFoodPlayer_spec (M : JsMath) (gc : GameConstants) (room : GameRoom)
    (player : ServerPlayerState)
    (hnodup : (room.food.map Hitodama.id).Nodup) :
    checkFoodPlayer M gc room player =
      ({ room.updatePlayer player.id (fun p =>
          { p with
            score := p.score +
              ((collectedFood M gc player room.food).map Hitodama.value).sum,
            targetLength := p.targetLength +
              ((collectedFood M gc player room.food).map
                (fun i => i.value * gc.GROWTH_PER_FOOD)).sum }) with
        food := room.food.filter (fun f =>
          ¬ headFoodDist M player f < PLAYER_CONFIG.RADIUS + gc.FOOD_RADIUS) },
       (collectedFood M gc player room.food).map
         (fun i => GameEvent.foodCollected i.id player.id)) := by
  unfold checkFoodPlayer
  dsimp only
  rw [foodFold_spec]
  dsimp only
  simp only [zero_add, List.nil_append, updatePlayer_food]
  rw [removeIds_eq_filter]
  have hfe : room.food.filter
      (fun f => ¬ f.id ∈ (collectedFood M gc player room.food).map Hitodama.id) =
      room.food.filter (fun f =>
        ¬ headFoodDist M player f < PLAYER_CONFIG.RADIUS + gc.FOOD_RADIUS) :=
    List.filter_congr (fun x hx =>
      decide_eq_decide.mpr
        (not_congr (mem_collected_id M gc player room.food hnodup x hx)))
  rw [hfe]

/-- C6 (amended).  In a room holding one alive player, one food pass removes
exactly the pellets whose head distance is strictly below the constant
radius `PLAYER.RADIUS + FOOD_RADIUS` (the pellet's own `radius` field is
not consulted), adds each removed pellet's value to the player's score,
grows the target length by `value * GROWTH_PER_FOOD` per pellet, leaves
every other pellet unchanged, and emits one `foodCollected` per removed
pellet, in food order. -/
theorem C6_food_collection (M : JsMath) (gc : GameConstants) (rid : String)
    (p : ServerPlayerState) (food : List Hitodama) (tick ctr : ℕ)
    (hA : p.alive = true) (hnodup : (food.map Hitodama.id).Nodup) :
    checkFoodCollisionsInRoom M gc ⟨rid, [p], food, tick, ctr⟩ =
      ({ id := rid,
         players := [{ p with
           score := p.score +
             ((collectedFood M gc p food).map Hitodama.value).sum,
           targetLength := p.targetLength +
             ((collectedFood M gc p food).map
               (fun i => i.value * gc.GROWTH_PER_FOOD)).sum }],
         food := food.filter (fun f =>
           ¬ headFoodDist M p f < PLAYER_CONFIG.RADIUS + gc.FOOD_RADIUS),
         currentTick := tick, foodIdCounter := ctr },
       (collectedFood M gc p food).map
         (fun i => GameEvent.foodCollected i.id p.id)) := by
  unfold checkFoodCollisionsInRoom
  simp only [List.map_cons, List.map_nil, List.foldl_cons, List.foldl_nil]
  have hget : GameRoom.getPlayer ⟨rid, [p], food, tick, ctr⟩ p.id = some p := by
    simp [GameRoom.getPlayer, List.find?]
  rw [hget]
  dsimp only
  rw [if_neg (by simp [hA])]
  rw [checkFoodPlayer_spec M gc _ p (by simpa using hnodup)]
  simp [GameRoom.updatePlayer]

/-- A golden pellet (radius `FOOD_RADIUS * 1.3 = 10.4`) sitting 29 px from
`basePlayer`'s head: inside `PLAYER.RADIUS + item.radius = 30.4` but outside
the constant collection radius `28`. -/
def c6Golden : Hitodama :=
  { id := "f", x := 1029, y := 1000, value := 5, radius := 52/5 }

theorem C6_counterexample :
    headFoodDist qMath basePlayer c6Golden <
      PLAYER_CONFIG.RADIUS + c6Golden.radius ∧
    (checkFoodCollisionsInRoom qMath GAME_CONSTANTS
        ⟨"room-1", [basePlayer], [c6Golden], 0, 0⟩).1.food = [c6Golden] ∧
    ((checkFoodCollisionsInRoom qMath GAME_CONSTANTS
        ⟨"room-1", [basePlayer], [c6Golden], 0, 0⟩).1.getPlayer "p").map
      (fun q => q.score) = some 0 := by
  refine ⟨?_, ?_, ?_⟩
  · norm_num [headFoodDist, qMath, qSqrt, basePlayer, zeroInput, c6Golden,
      PLAYER_CONFIG]
  · norm_num [checkFoodCollisionsInRoom, checkFoodPlayer, foodFoldStep,
      GameRoom.getPlayer, GameRoom.updatePlayer, List.find?, basePlayer,
      zeroInput, c6Golden, qMath, qSqrt, PLAYER_CONFIG, GAME_CONSTANTS]
  · norm_num [checkFoodCollisionsInRoom, checkFoodPlayer, foodFoldStep,
      GameRoom.getPlayer, GameRoom.updatePlayer, List.find?, basePlayer,
      zeroInput, c6Golden, qMath, qSqrt, PLAYER_CONFIG, GAME_CONSTANTS]

/-- A plain pellet 10 px from `basePlayer` (collected). -/
def c6Near : Hitodama := { id := "f0", x := 1010, y := 1000, value := 1, radius := 8 }

/-- A plain pellet 60 px from `basePlayer` (kept). -/
def c6Far : Hitodama := { id := "f1", x := 1060, y := 1000, value := 1, radius := 8 }

theorem C6_witness :
    checkFoodCollisionsInRoom qMath GAME_CONSTANTS
        ⟨"room-1", [basePlayer], [c6Near, c6Far], 0, 0⟩ =
      ({ id := "room-1",
         players := [{ basePlayer with
           score := 1, targetLength := 4 }],
         food := [c6Far], currentTick := 0, foodIdCounter := 0 },
       [GameEvent.foodCollected "f0" "p"]) := by
  have h := C6_food_collection qMath GAME_CONSTANTS "room-1" basePlayer
    [c6Near, c6Far] 0 0 rfl (by decide)
  rw [h]
  norm_num [collectedFood, headFoodDist, qMath, qSqrt, basePlayer, zeroInput,
    c6Near, c6Far, PLAYER_CONFIG, GAME_CONSTANTS, List.filter]

/-! ## C7: reconciliation behaviour -/

/-- The `errorDistance` of `reconcile`: distance between the server state
and the stored prediction at the acknowledged input. -/
def reconcileError (M : JsMath) (sv : PlayerStateM) (st : StoredInput) : ℚ :=
  M.sqrt ((sv.x - st.predictedX) * (sv.x - st.predictedX) +
    (sv.y - st.predictedY) * (sv.y - st.predictedY))

/-- The fallback `distance` of `reconcile`: drift between the server state
and the live predicted position. -/
def reconcileDrift (M : JsMath) (cp : ClientPrediction) (sv : PlayerStateM) : ℚ :=
  M.sqrt ((sv.x - cp.x) * (sv.x - cp.x) + (sv.y - cp.y) * (sv.y - cp.y))

/-- Case analysis of `reconcile`, shared by the C7 theorem and its
counterexample. -/
theorem reconcile_cases_spec (M : JsMath) (cp : ClientPrediction)
    (sv : PlayerStateM) :
    (∀ i st,
      cp.inputHistory.findIdx?
        (fun s => s.input.sequence = sv.lastProcessedInput) = some i →
      cp.inputHistory.get? i = some st →
      (MAX_POSITION_ERROR < reconcileError M sv st →
        ClientPrediction.reconcile M cp sv = ClientPrediction.replayInputs M
          { cp with
            inputHistory := cp.inputHistory.drop (i + 1),
            x := sv.x, y := sv.y, currentAngle := sv.angle,
            currentSpeed := sv.speed, correctionX := 0, correctionY := 0 }) ∧
      (reconcileError M sv st ≤ MAX_POSITION_ERROR →
       0.5 < reconcileError M sv st →
        ClientPrediction.reconcile M cp sv =
          { cp with
            inputHistory := cp.inputHistory.drop (i + 1),
            correctionX := cp.correctionX + (sv.x - st.predictedX),
            correctionY := cp.correctionY + (sv.y - st.predictedY) }) ∧
      (reconcileError M sv st ≤ 0.5 →
        ClientPrediction.reconcile M cp sv =
          { cp with inputHistory := cp.inputHistory.drop (i + 1) })) ∧
    (cp.inputHistory.findIdx?
        (fun s => s.input.sequence = sv.lastProcessedInput) = none →
      (MAX_POSITION_ERROR < reconcileDrift M cp sv →
        ClientPrediction.reconcile M cp sv =
          { cp with
            x := sv.x, y := sv.y, currentAngle := sv.angle,
            currentSpeed := sv.speed, correctionX := 0, correctionY := 0 }) ∧
      (reconcileDrift M cp sv ≤ MAX_POSITION_ERROR →
        ClientPrediction.reconcile M cp sv = cp)) := by
  constructor
  · intro i st hfind hget
    refine ⟨?_, ?_, ?_⟩
    · intro h
      unfold reconcileError at h
      unfold ClientPrediction.reconcile
      dsimp only
      rw [hfind]
      dsimp only
      rw [hget]
      dsimp only
      rw [if_pos h]
    · intro h1 h2
      unfold reconcileError at h1 h2
      unfold ClientPrediction.reconcile
      dsimp only
      rw [hfind]
      dsimp only
      rw [hget]
      dsimp only
      rw [if_neg (not_lt.mpr h1), if_pos h2]
    · intro h
      unfold reconcileError at h
      have hmax : reconcileError M sv st ≤ MAX_POSITION_ERROR := by
        unfold reconcileError
        calc M.sqrt ((sv.x - st.predictedX) * (sv.x - st.predictedX) +
            (sv.y - st.predictedY) * (sv.y - st.predictedY)) ≤ 0.5 := h
          _ ≤ MAX_POSITION_ERROR := by norm_num [MAX_POSITION_ERROR]
      unfold reconcileError at hmax
      unfold ClientPrediction.reconcile
      dsimp only
      rw [hfind]
      dsimp only
      rw [hget]
      dsimp only
      rw [if_neg (not_lt.mpr hmax), if_neg (not_lt.mpr h)]
  · intro hfind
    constructor
    · intro h
      unfold reconcileDrift at h
      unfold ClientPrediction.reconcile
      dsimp only
      rw [hfind]
      dsimp only
      rw [if_pos h]
    · intro h
      unfold reconcileDrift at h
      unfold ClientPrediction.reconcile
      dsimp only
      rw [hfind]
      dsimp only
      rw [if_neg (not_lt.mpr h)]

/-- C7 (amended).  `reconcile` behaves by cases.  Acknowledged input found
at index `i` with stored prediction `st` (history up to and including `i`
is dropped in every sub-case): error above `MAX_POSITION_ERROR` snaps to
the server state, zeroes pending corrections and replays the remaining
inputs in order; error in `(0.5, MAX_POSITION_ERROR]` does not snap and
accumulates the error into the smoothing correction; error at most `0.5`
is ignored entirely — no snap, no correction accumulation (dead zone the
original claim omits).  No acknowledged input found: snap exactly when the
live drift exceeds `MAX_POSITION_ERROR`, otherwise no change at all. -/
theorem C7_reconcile_cases (M : JsMath) (cp : ClientPrediction)
    (sv : PlayerStateM) :
    (∀ i st,
      cp.inputHistory.findIdx?
        (fun s => s.input.sequence = sv.lastProcessedInput) = some i →
      cp.inputHistory.get? i = some st →
      (MAX_POSITION_ERROR < reconcileError M sv st →
        ClientPrediction.reconcile M cp sv = ClientPrediction.replayInputs M
          { cp with
            inputHistory := cp.inputHistory.drop (i + 1),
            x := sv.x, y := sv.y, currentAngle := sv.angle,
            currentSpeed := sv.speed, correctionX := 0, correctionY := 0 }) ∧
      (reconcileError M sv st ≤ MAX_POSITION_ERROR →
       0.5 < reconcileError M sv st →
        ClientPrediction.reconcile M cp sv =
          { cp with
            inputHistory := cp.inputHistory.drop (i + 1),
            correctionX := cp.correctionX + (sv.x - st.predictedX),
            correctionY := cp.correctionY + (sv.y - st.predictedY) }) ∧
      (reconcileError M sv st ≤ 0.5 →
        ClientPrediction.reconcile M cp sv =
          { cp with inputHistory := cp.inputHistory.drop (i + 1) })) ∧
    (cp.inputHistory.findIdx?
        (fun s => s.input.sequence = sv.lastProcessedInput) = none →
      (MAX_POSITION_ERROR < reconcileDrift M cp sv →
        ClientPrediction.reconcile M cp sv =
          { cp with
            x := sv.x, y := sv.y, currentAngle := sv.angle,
            currentSpeed := sv.speed, correctionX := 0, correctionY := 0 }) ∧
      (reconcileDrift M cp sv ≤ MAX_POSITION_ERROR →
        ClientPrediction.reconcile M cp sv = cp)) :=
  reconcile_cases_spec M cp sv

/-- A stored input (sequence 1) whose prediction sits at `(1000, 1000)`. -/
def c7Stored : StoredInput :=
  { input := { sequence := 1, mouseX := 0, mouseY := 0, boosting := false,
               timestamp := 0 },
    predictedX := 1000, predictedY := 1000, predictedAngle := 0,
    predictedSpeed := 0 }

/-- A client predictor at `(1000, 1000)` with `c7Stored` buffered. -/
def c7CP : ClientPrediction :=
  { inputHistory := [c7Stored], inputSequence := 1, x := 1000, y := 1000,
    currentAngle := 0, targetAngle := 0, currentSpeed := 0,
    correctionX := 0, correctionY := 0 }

/-- A server state acknowledging sequence 1 whose position is 3/10 px off
the stored prediction. -/
def c7SV : PlayerStateM :=
  { id := "p", name := "p", x := 10003/10, y := 1000, angle := 0, speed := 0,
    score := 0, bodySegments := [], targetLength := 3,
    lastProcessedInput := 1, alive := true, kills := 0 }

theorem C7_counterexample :
    reconcileError qMath c7SV c7Stored = 3/10 ∧
    ClientPrediction.reconcile qMath c7CP c7SV =
      { c7CP with inputHistory := [] } := by
  have he : reconcileError qMath c7SV c7Stored = 3/10 := by
    norm_num [reconcileError, qMath, qSqrt, c7SV, c7Stored]
  refine ⟨he, ?_⟩
  have hfind : c7CP.inputHistory.findIdx?
      (fun s => s.input.sequence = c7SV.lastProcessedInput) = some 0 := rfl
  have h := ((reconcile_cases_spec qMath c7CP c7SV).1 0 c7Stored hfind rfl).2.2
    (by rw [he]; norm_num)
  exact h

/-- A server state acknowledging sequence 1 whose position is 10 px off the
stored prediction: inside the snap threshold, outside the dead zone. -/
def c7SVb : PlayerStateM :=
  { id := "p", name := "p", x := 1010, y := 1000, angle := 0, speed := 0,
    score := 0, bodySegments := [], targetLength := 3,
    lastProcessedInput := 1, alive := true, kills := 0 }

theorem C7_witness :
    ClientPrediction.reconcile qMath c7CP c7SVb =
      { c7CP with inputHistory := [], correctionX := 10, correctionY := 0 } := by
  have he : reconcileError qMath c7SVb c7Stored = 10 := by
    norm_num [reconcileError, qMath, qSqrt, c7SVb, c7Stored]
  have hfind : c7CP.inputHistory.findIdx?
      (fun s => s.input.sequence = c7SVb.lastProcessedInput) = some 0 := rfl
  have h := ((C7_reconcile_cases qMath c7CP c7SVb).1 0 c7Stored hfind rfl).2.1
    (by rw [he]; norm_num [MAX_POSITION_ERROR]) (by rw [he]; norm_num)
  rw [h]
  norm_num [c7CP, c7SVb, c7Stored]

/-! ## C1: client prediction vs server movement model -/

/-- The `playerInput` socket handler (final version, lines 2424–2430):
store the input and acknowledge its sequence, for joined alive players. -/
def serverReceiveInput (player : ServerPlayerState) (inp : PlayerInputM) :
    ServerPlayerState :=
  if player.alive ∧ player.hasJoined then
    { player with input := inp, lastProcessedInput := inp.sequence }
  else player

/-- The heading both movement models compute for one step (they share this
formula verbatim; `CLIENT_PLAYER_CONFIG` and `PLAYER_CONFIG` hold the same
numbers). -/
def moveAngle (M : JsMath) (cur mx my deltaS : ℚ) : ℚ :=
  let dist := M.sqrt (mx * mx + my * my)
  if 0.05 < dist then
    let targetAngle := M.atan2 my mx
    let angleDiff := wrapAngle (targetAngle - cur)
    let turnAmount := PLAYER_CONFIG.TURN_SPEED * deltaS
    wrapAngle (if |angleDiff| < turnAmount then targetAngle
      else if 0 < angleDiff then cur + turnAmount
      else cur - turnAmount)
  else cur

/-- The speed both movement models compute for one step (assuming the
server's `canBoost` test passes whenever `boosting` is set). -/
def moveSpeed (M : JsMath) (prev mx my : ℚ) (boosting : Bool) : ℚ :=
  let dist := M.sqrt (mx * mx + my * my)
  if 0.05 < dist then
    let baseSpeed := PLAYER_CONFIG.BASE_SPEED * min dist 1
    if boosting then baseSpeed * PLAYER_CONFIG.BOOST_MULTIPLIER else baseSpeed
  else prev * 0.95

theorem clamp_eq_self {v lo hi : ℚ} (h1 : lo ≤ v) (h2 : v ≤ hi) :
    clamp v lo hi = v := by
  unfold clamp
  rw [min_eq_right h2, max_eq_right h1]

theorem clamp_strict_eq {v lo hi lo' hi' : ℚ} (hlo : lo' < lo) (hhi : hi < hi')
    (h1 : lo ≤ clamp v lo' hi') (h2 : clamp v lo' hi' ≤ hi) :
    clamp v lo' hi' = v := by
  unfold clamp at h1 h2 ⊢
  rcases le_total v hi' with hv | hv
  · rw [min_eq_right hv] at h1 h2 ⊢
    rcases le_total lo' v with hv2 | hv2
    · rw [max_eq_right hv2]
    · rw [max_eq_left hv2] at h1
      exact absurd h1 (not_le.mpr hlo)
  · rw [min_eq_left hv] at h1 h2
    rcases le_total lo' hi' with hlh | hlh
    · rw [max_eq_right hlh] at h2
      exact absurd h2 (not_le.mpr hhi)
    · rw [max_eq_left hlh] at h1
      exact absurd h1 (not_le.mpr hlo)

theorem clientStep_proj (M : JsMath) (cp : ClientPrediction)
    (mx my : ℚ) (boosting : Bool) (deltaMs : ℚ) (seq : ℕ) (now : ℚ)
    (hcx : cp.correctionX = 0) (hcy : cp.correctionY = 0) :
    (ClientPrediction.processInput M cp mx my boosting deltaMs seq now).1.x =
      clamp (cp.x + M.cos (moveAngle M cp.currentAngle mx my (deltaMs / 1000)) *
          moveSpeed M cp.currentSpeed mx my boosting * (deltaMs / 1000))
        CLIENT_PLAYER_CONFIG.RADIUS
        (CLIENT_WORLD_WIDTH - CLIENT_PLAYER_CONFIG.RADIUS) ∧
    (ClientPrediction.processInput M cp mx my boosting deltaMs seq now).1.y =
      clamp (cp.y + M.sin (moveAngle M cp.currentAngle mx my (deltaMs / 1000)) *
          moveSpeed M cp.currentSpeed mx my boosting * (deltaMs / 1000))
        CLIENT_PLAYER_CONFIG.RADIUS
        (CLIENT_WORLD_HEIGHT - CLIENT_PLAYER_CONFIG.RADIUS) ∧
    (ClientPrediction.processInput M cp mx my boosting deltaMs seq now).1.currentAngle =
      moveAngle M cp.currentAngle mx my (deltaMs / 1000) ∧
    (ClientPrediction.processInput M cp mx my boosting deltaMs seq now).1.currentSpeed =
      moveSpeed M cp.currentSpeed mx my boosting ∧
    (ClientPrediction.processInput M cp mx my boosting deltaMs seq now).1.correctionX = 0 ∧
    (ClientPrediction.processInput M cp mx my boosting deltaMs seq now).1.correctionY = 0 := by
  unfold ClientPrediction.processInput ClientPrediction.applyCorrection
    moveAngle moveSpeed
  dsimp only
  rw [hcx, hcy]
  have hCP : CLIENT_PLAYER_CONFIG = PLAYER_CONFIG := rfl
  rw [hCP]
  by_cases hd : (0.05 : ℚ) < M.sqrt (mx * mx + my * my)
  · simp only [if_pos hd, zero_mul, sub_zero, add_zero, abs_zero,
      if_pos (show (0 : ℚ) < 0.1 by norm_num)]
    exact ⟨trivial, trivial, trivial, trivial, trivial, trivial⟩
  · simp only [if_neg hd, zero_mul, sub_zero, add_zero, abs_zero,
      if_pos (show (0 : ℚ) < 0.1 by norm_num)]
    exact ⟨trivial, trivial, trivial, trivial, trivial, trivial⟩

theorem serverStep_proj (M : JsMath) (gc : GameConstants)
    (player : ServerPlayerState) (inp : PlayerInputM) (deltaS : ℚ)
    (hA : player.alive = true) (hJ : player.hasJoined = true)
    (hTL : gc.MIN_BODY_LENGTH < player.targetLength) :
    (updatePlayerMovement M gc (serverReceiveInput player inp) deltaS).x =
      clamp (player.x +
          M.cos (moveAngle M player.currentAngle inp.mouseX inp.mouseY deltaS) *
          moveSpeed M player.currentSpeed inp.mouseX inp.mouseY inp.boosting *
          deltaS)
        (PLAYER_CONFIG.RADIUS * (-0.5))
        (WORLD_WIDTH - PLAYER_CONFIG.RADIUS * (-0.5)) ∧
    (updatePlayerMovement M gc (serverReceiveInput player inp) deltaS).y =
      clamp (player.y +
          M.sin (moveAngle M player.currentAngle inp.mouseX inp.mouseY deltaS) *
          moveSpeed M player.currentSpeed inp.mouseX inp.mouseY inp.boosting *
          deltaS)
        (PLAYER_CONFIG.RADIUS * (-0.5))
        (WORLD_HEIGHT - PLAYER_CONFIG.RADIUS * (-0.5)) ∧
    (updatePlayerMovement M gc (serverReceiveInput player inp) deltaS).currentAngle =
      moveAngle M player.currentAngle inp.mouseX inp.mouseY deltaS ∧
    (updatePlayerMovement M gc (serverReceiveInput player inp) deltaS).currentSpeed =
      moveSpeed M player.currentSpeed inp.mouseX inp.mouseY inp.boosting ∧
    (updatePlayerMovement M gc (serverReceiveInput player inp) deltaS).alive = true ∧
    (updatePlayerMovement M gc (serverReceiveInput player inp) deltaS).hasJoined = true ∧
    (updatePlayerMovement M gc (serverReceiveInput player inp) deltaS).targetLength =
      player.targetLength := by
  unfold serverReceiveInput updatePlayerMovement moveAngle moveSpeed
  rw [if_pos (show player.alive = true ∧ player.hasJoined = true from ⟨hA, hJ⟩)]
  dsimp only
  rw [hA]
  rw [if_neg (show ¬ (true = false) by simp)]
  dsimp only
  by_cases hd : (0.05 : ℚ) < M.sqrt (inp.mouseX * inp.mouseX + inp.mouseY * inp.mouseY)
  · by_cases hb : inp.boosting = true
    · simp only [if_pos hd, if_pos hb,
        if_pos (show inp.boosting = true ∧ gc.MIN_BODY_LENGTH < player.targetLength
          from ⟨hb, hTL⟩), hJ]
      exact ⟨trivial, trivial, trivial, trivial, trivial, trivial, trivial⟩
    · simp only [if_pos hd, if_neg hb,
        if_neg (show ¬ (inp.boosting = true ∧
          gc.MIN_BODY_LENGTH < player.targetLength) from fun h => hb h.1), hJ]
      exact ⟨trivial, trivial, trivial, trivial, trivial, trivial, trivial⟩
  · simp only [if_neg hd, hJ]
    exact ⟨trivial, trivial, trivial, trivial, trivial, trivial, trivial⟩

theorem movement_step_agree (M : JsMath) (gc : GameConstants)
    (cp : ClientPrediction) (player : ServerPlayerState) (inp : PlayerInputM)
    (deltaMs : ℚ) (seq : ℕ) (now : ℚ)
    (hA : player.alive = true) (hJ : player.hasJoined = true)
    (hTL : gc.MIN_BODY_LENGTH < player.targetLength)
    (hx : cp.x = player.x) (hy : cp.y = player.y)
    (ha : cp.currentAngle = player.currentAngle)
    (hs : cp.currentSpeed = player.currentSpeed)
    (hcx : cp.correctionX = 0) (hcy : cp.correctionY = 0)
    (hbx : CLIENT_PLAYER_CONFIG.RADIUS ≤
        (updatePlayerMovement M gc (serverReceiveInput player inp) (deltaMs / 1000)).x ∧
      (updatePlayerMovement M gc (serverReceiveInput player inp) (deltaMs / 1000)).x ≤
        CLIENT_WORLD_WIDTH - CLIENT_PLAYER_CONFIG.RADIUS)
    (hby : CLIENT_PLAYER_CONFIG.RADIUS ≤
        (updatePlayerMovement M gc (serverReceiveInput player inp) (deltaMs / 1000)).y ∧
      (updatePlayerMovement M gc (serverReceiveInput player inp) (deltaMs / 1000)).y ≤
        CLIENT_WORLD_HEIGHT - CLIENT_PLAYER_CONFIG.RADIUS) :
    (ClientPrediction.processInput M cp inp.mouseX inp.mouseY inp.boosting
        deltaMs seq now).1.x =
      (updatePlayerMovement M gc (serverReceiveInput player inp) (deltaMs / 1000)).x ∧
    (ClientPrediction.processInput M cp inp.mouseX inp.mouseY inp.boosting
        deltaMs seq now).1.y =
      (updatePlayerMovement M gc (serverReceiveInput player inp) (deltaMs / 1000)).y ∧
    (ClientPrediction.processInput M cp inp.mouseX inp.mouseY inp.boosting
        deltaMs seq now).1.currentAngle =
      (updatePlayerMovement M gc (serverReceiveInput player inp) (deltaMs / 1000)).currentAngle ∧
    (ClientPrediction.processInput M cp inp.mouseX inp.mouseY inp.boosting
        deltaMs seq now).1.currentSpeed =
      (updatePlayerMovement M gc (serverReceiveInput player inp) (deltaMs / 1000)).currentSpeed ∧
    (ClientPrediction.processInput M cp inp.mouseX inp.mouseY inp.boosting
        deltaMs seq now).1.correctionX = 0 ∧
    (ClientPrediction.processInput M cp inp.mouseX inp.mouseY inp.boosting
        deltaMs seq now).1.correctionY = 0 := by
  obtain ⟨cx, cy, ca, cs, ccx, ccy⟩ :=
    clientStep_proj M cp inp.mouseX inp.mouseY inp.boosting deltaMs seq now hcx hcy
  obtain ⟨sx, sy, sa, ss, _, _, _⟩ :=
    serverStep_proj M gc player inp (deltaMs / 1000) hA hJ hTL
  simp only [hx, hy, ha, hs] at cx cy ca cs
  rw [sx] at hbx
  rw [sy] at hby
  have hlo : PLAYER_CONFIG.RADIUS * (-0.5) < CLIENT_PLAYER_CONFIG.RADIUS := by
    norm_num [PLAYER_CONFIG, CLIENT_PLAYER_CONFIG]
  have hhix : CLIENT_WORLD_WIDTH - CLIENT_PLAYER_CONFIG.RADIUS <
      WORLD_WIDTH - PLAYER_CONFIG.RADIUS * (-0.5) := by
    norm_num [PLAYER_CONFIG, CLIENT_PLAYER_CONFIG, WORLD_WIDTH, CLIENT_WORLD_WIDTH]
  have hhiy : CLIENT_WORLD_HEIGHT - CLIENT_PLAYER_CONFIG.RADIUS <
      WORLD_HEIGHT - PLAYER_CONFIG.RADIUS * (-0.5) := by
    norm_num [PLAYER_CONFIG, CLIENT_PLAYER_CONFIG, WORLD_HEIGHT, CLIENT_WORLD_HEIGHT]
  have hvx := clamp_strict_eq hlo hhix hbx.1 hbx.2
  have hvy := clamp_strict_eq hlo hhiy hby.1 hby.2
  refine ⟨?_, ?_, ?_, ?_, ccx, ccy⟩
  · rw [cx, sx, hvx, clamp_eq_self (hvx ▸ hbx.1) (hvx ▸ hbx.2)]
  · rw [cy, sy, hvy, clamp_eq_self (hvy ▸ hby.1) (hvy ▸ hby.2)]
  · rw [ca, sa]
  · rw [cs, ss]

/-- The client movement model run over a list of input samples with a fixed
per-step elapsed time. -/
def clientRun (M : JsMath) (cp : ClientPrediction) (deltaMs : ℚ)
    (inputs : List PlayerInputM) : ClientPrediction :=
  inputs.foldl (fun c inp =>
    (ClientPrediction.processInput M c inp.mouseX inp.mouseY inp.boosting
      deltaMs inp.sequence inp.timestamp).1) cp

/-- The server movement model run over the same input samples: each is
delivered through the `playerInput` handler, then one tick is simulated. -/
def serverRun (M : JsMath) (gc : GameConstants) (player : ServerPlayerState)
    (deltaS : ℚ) (inputs : List PlayerInputM) : ServerPlayerState :=
  inputs.foldl (fun p inp =>
    updatePlayerMovement M gc (serverReceiveInput p inp) deltaS) player

/-- C1 (amended).  Starting from identical kinematic state, with no pending
reconciliation correction, for an alive joined player whose target length
exceeds `MIN_BODY_LENGTH` (so the server's `canBoost` test agrees with the
client's unconditional boost), and provided every intermediate server
position stays inside the CLIENT's clamping box
`[RADIUS, 2000 - RADIUS]²`, the client prediction and the server movement
model produce exactly equal position, heading and speed after every input
list.  (Away from that box the models genuinely diverge: the client clamps
to its 2000×2000 world, the server to the 6000×6000 world with a `-10`
hard limit — see the counterexample.) -/
theorem C1_movement_models_agree (M : JsMath) (gc : GameConstants)
    (inputs : List PlayerInputM) :
    ∀ (cp : ClientPrediction) (player : ServerPlayerState) (deltaMs : ℚ),
    player.alive = true → player.hasJoined = true →
    gc.MIN_BODY_LENGTH < player.targetLength →
    cp.x = player.x → cp.y = player.y →
    cp.currentAngle = player.currentAngle →
    cp.currentSpeed = player.currentSpeed →
    cp.correctionX = 0 → cp.correctionY = 0 →
    (∀ k, 0 < k → k ≤ inputs.length →
      (CLIENT_PLAYER_CONFIG.RADIUS ≤
          (serverRun M gc player (deltaMs / 1000) (inputs.take k)).x ∧
        (serverRun M gc player (deltaMs / 1000) (inputs.take k)).x ≤
          CLIENT_WORLD_WIDTH - CLIENT_PLAYER_CONFIG.RADIUS) ∧
      (CLIENT_PLAYER_CONFIG.RADIUS ≤
          (serverRun M gc player (deltaMs / 1000) (inputs.take k)).y ∧
        (serverRun M gc player (deltaMs / 1000) (inputs.take k)).y ≤
          CLIENT_WORLD_HEIGHT - CLIENT_PLAYER_CONFIG.RADIUS)) →
    (clientRun M cp deltaMs inputs).x =
      (serverRun M gc player (deltaMs / 1000) inputs).x ∧
    (clientRun M cp deltaMs inputs).y =
      (serverRun M gc player (deltaMs / 1000) inputs).y ∧
    (clientRun M cp deltaMs inputs).currentAngle =
      (serverRun M gc player (deltaMs / 1000) inputs).currentAngle ∧
    (clientRun M cp deltaMs inputs).currentSpeed =
      (serverRun M gc player (deltaMs / 1000) inputs).currentSpeed := by
  induction inputs with
  | nil =>
    intro cp player deltaMs hA hJ hTL hx hy ha hs hcx hcy hbound
    exact ⟨hx, hy, ha, hs⟩
  | cons i l ih =>
    intro cp player deltaMs hA hJ hTL hx hy ha hs hcx hcy hbound
    have hb1 := hbound 1 (by norm_num) (by simp)
    have htake1 : (i :: l).take 1 = [i] := rfl
    rw [htake1] at hb1
    have hone : serverRun M gc player (deltaMs / 1000) [i] =
        updatePlayerMovement M gc (serverReceiveInput player i)
          (deltaMs / 1000) := rfl
    rw [hone] at hb1
    have hstep := movement_step_agree M gc cp player i deltaMs i.sequence
      i.timestamp hA hJ hTL hx hy ha hs hcx hcy ⟨hb1.1.1, hb1.1.2⟩
      ⟨hb1.2.1, hb1.2.2⟩
    obtain ⟨ex, ey, ea, es, ecx, ecy⟩ := hstep
    obtain ⟨_, _, _, _, pA, pJ, pTL⟩ :=
      serverStep_proj M gc player i (deltaMs / 1000) hA hJ hTL
    have hcons_s : serverRun M gc player (deltaMs / 1000) (i :: l) =
        serverRun M gc (updatePlayerMovement M gc (serverReceiveInput player i)
          (deltaMs / 1000)) (deltaMs / 1000) l := rfl
    have hcons_c : clientRun M cp deltaMs (i :: l) =
        clientRun M (ClientPrediction.processInput M cp i.mouseX i.mouseY
          i.boosting deltaMs i.sequence i.timestamp).1 deltaMs l := rfl
    rw [hcons_s, hcons_c]
    apply ih _ _ deltaMs pA pJ (pTL ▸ hTL) ex ey ea es ecx ecy
    intro k hk0 hk1
    have hb := hbound (k + 1) (by omega) (by simpa using hk1)
    have htk : (i :: l).take (k + 1) = i :: l.take k := rfl
    rw [htk] at hb
    have hsh : serverRun M gc player (deltaMs / 1000) (i :: l.take k) =
        serverRun M gc (updatePlayerMovement M gc (serverReceiveInput player i)
          (deltaMs / 1000)) (deltaMs / 1000) (l.take k) := rfl
    rw [hsh] at hb
    exact hb

/-- `basePlayer` at the left world edge. -/
def c1Player : ServerPlayerState :=
  { basePlayer with
    x := 0 }

theorem C1_counterexample :
    (clientRun qMath (ClientPrediction.create 0 1000 0) 50 [zeroInput]).x = 20 ∧
    (serverRun qMath GAME_CONSTANTS c1Player (50 / 1000) [zeroInput]).x = 0 := by
  constructor
  · have h := (clientStep_proj qMath (ClientPrediction.create 0 1000 0)
      0 0 false 50 0 0 rfl rfl).1
    have he : (clientRun qMath (ClientPrediction.create 0 1000 0) 50
        [zeroInput]).x =
      (ClientPrediction.processInput qMath (ClientPrediction.create 0 1000 0)
        0 0 false 50 0 0).1.x := rfl
    rw [he, h]
    norm_num [moveAngle, moveSpeed, qMath, qSqrt, clamp,
      CLIENT_PLAYER_CONFIG, CLIENT_WORLD_WIDTH, ClientPrediction.create]
  · have h := (serverStep_proj qMath GAME_CONSTANTS c1Player zeroInput
      (50 / 1000) rfl rfl (by decide)).1
    have he : (serverRun qMath GAME_CONSTANTS c1Player (50 / 1000)
        [zeroInput]).x =
      (updatePlayerMovement qMath GAME_CONSTANTS
        (serverReceiveInput c1Player zeroInput) (50 / 1000)).x := rfl
    rw [he, h]
    norm_num [moveAngle, moveSpeed, qMath, qSqrt, clamp, PLAYER_CONFIG,
      WORLD_WIDTH, c1Player, basePlayer, zeroInput]

theorem C1_witness :
    (clientRun qMath (ClientPrediction.create 1000 1000 0) 50 [zeroInput]).x =
      (serverRun qMath GAME_CONSTANTS basePlayer (50 / 1000) [zeroInput]).x ∧
    (clientRun qMath (ClientPrediction.create 1000 1000 0) 50 [zeroInput]).y =
      (serverRun qMath GAME_CONSTANTS basePlayer (50 / 1000) [zeroInput]).y ∧
    (clientRun qMath (ClientPrediction.create 1000 1000 0) 50
        [zeroInput]).currentAngle =
      (serverRun qMath GAME_CONSTANTS basePlayer (50 / 1000)
        [zeroInput]).currentAngle ∧
    (clientRun qMath (ClientPrediction.create 1000 1000 0) 50
        [zeroInput]).currentSpeed =
      (serverRun qMath GAME_CONSTANTS basePlayer (50 / 1000)
        [zeroInput]).currentSpeed := by
  apply C1_movement_models_agree qMath GAME_CONSTANTS [zeroInput]
    (ClientPrediction.create 1000 1000 0) basePlayer 50 rfl rfl
    (by decide) rfl rfl rfl rfl rfl rfl
  intro k hk0 hk1
  have hlen : ([zeroInput] : List PlayerInputM).length = 1 := rfl
  rw [hlen] at hk1
  have hk : k = 1 := by omega
  subst hk
  have htake : ([zeroInput].take 1) = [zeroInput] := rfl
  rw [htake]
  have he : serverRun qMath GAME_CONSTANTS basePlayer (50 / 1000) [zeroInput] =
      updatePlayerMovement qMath GAME_CONSTANTS
        (serverReceiveInput basePlayer zeroInput) (50 / 1000) := rfl
  obtain ⟨px, py, _, _, _, _, _⟩ := serverStep_proj qMath GAME_CONSTANTS
    basePlayer zeroInput (50 / 1000) rfl rfl (by decide)
  rw [he, px, py]
  norm_num [moveAngle, moveSpeed, qMath, qSqrt, clamp, PLAYER_CONFIG,
    WORLD_WIDTH, WORLD_HEIGHT, basePlayer, zeroInput, CLIENT_PLAYER_CONFIG,
    CLIENT_WORLD_WIDTH, CLIENT_WORLD_HEIGHT]

/-! ## C2: body segment sampling -/

/-- Length of one history interval, as `calculateBodySegments` computes it. -/
def segLen (M : JsMath) (prev curr : PositionRecord) : ℚ :=
  M.sqrt ((prev.x - curr.x) * (prev.x - curr.x) +
    (prev.y - curr.y) * (prev.y - curr.y))

/-- Total arc length of a history polyline. -/
def arcLen (M : JsMath) : PositionRecord → List PositionRecord → ℚ
  | _, [] => 0
  | prev, curr :: rs => segLen M prev curr + arcLen M curr rs

/-- The point at arc depth `d` behind the head along the history polyline,
interpolated exactly the way the sampler interpolates (measuring the
overshoot back from the older end of the containing interval). -/
def pointAtArc (M : JsMath) : PositionRecord → List PositionRecord → ℚ → BodySegmentM
  | _, [], _ => ⟨0, 0⟩
  | prev, curr :: rs, d =>
    let L := segLen M prev curr
    if d ≤ L then
      let t := if 0 < L then (L - d) / L else 0
      ⟨curr.x + (prev.x - curr.x) * t, curr.y + (prev.y - curr.y) * t⟩
    else pointAtArc M curr rs (d - L)

/-- Every history interval has a well-behaved oracle length in `[0, sp]`. -/
def gapsBounded (M : JsMath) (sp : ℚ) : PositionRecord → List PositionRecord → Prop
  | _, [] => True
  | prev, curr :: rs =>
    (0 ≤ segLen M prev curr ∧ segLen M prev curr ≤ sp) ∧ gapsBounded M sp curr rs

theorem calcInner_stop (curr : PositionRecord)
    (dx dy L req cl distAcc : ℚ) (segIdx : ℕ) (acc : List BodySegmentM)
    (h : ¬ (req ≤ distAcc ∧ (segIdx : ℚ) < cl)) :
    calcInner curr dx dy L req cl distAcc segIdx acc = (distAcc, segIdx, acc) := by
  rw [calcInner, dif_neg h]

theorem calcInner_once (curr : PositionRecord)
    (dx dy L req cl distAcc : ℚ) (segIdx : ℕ) (acc : List BodySegmentM)
    (h1 : req ≤ distAcc) (h2 : (segIdx : ℚ) < cl)
    (h3 : ¬ req ≤ distAcc - req) :
    calcInner curr dx dy L req cl distAcc segIdx acc =
      (distAcc - req, segIdx + 1,
       acc ++ [⟨curr.x + dx * (if 0 < L then (distAcc - req) / L else 0),
               curr.y + dy * (if 0 < L then (distAcc - req) / L else 0)⟩]) := by
  rw [calcInner, dif_pos ⟨h1, h2⟩]
  rw [calcInner, dif_neg (fun hh => h3 hh.1)]

theorem pointAtArc_step (M : JsMath) (prev curr : PositionRecord)
    (rs : List PositionRecord) (d : ℚ) (h : ¬ d ≤ segLen M prev curr) :
    pointAtArc M prev (curr :: rs) d =
      pointAtArc M curr rs (d - segLen M prev curr) := by
  rw [pointAtArc]
  dsimp only
  rw [if_neg h]

theorem pointAtArc_here (M : JsMath) (prev curr : PositionRecord)
    (rs : List PositionRecord) (d : ℚ) (h : d ≤ segLen M prev curr) :
    pointAtArc M prev (curr :: rs) d =
      ⟨curr.x + (prev.x - curr.x) *
        (if 0 < segLen M prev curr then (segLen M prev curr - d) / segLen M prev curr else 0),
       curr.y + (prev.y - curr.y) *
        (if 0 < segLen M prev curr then (segLen M prev curr - d) / segLen M prev curr else 0)⟩ := by
  rw [pointAtArc]
  dsimp only
  rw [if_pos h]

theorem calcOuter_fine_spec (M : JsMath) (gc : GameConstants) (n : ℕ)
    (hsp : 0 < gc.BODY_SEGMENT_SPACING)
    (hfg : gc.BODY_SEGMENT_SPACING ≤ gc.FIRST_SEGMENT_GAP)
    (rest : List PositionRecord) :
    ∀ (prev : PositionRecord) (r : ℚ) (m : ℕ) (acc : List BodySegmentM),
      m ≤ n → 0 ≤ r →
      r < (if m = 0 then gc.FIRST_SEGMENT_GAP else gc.BODY_SEGMENT_SPACING) →
      gapsBounded M gc.BODY_SEGMENT_SPACING prev rest →
      (m < n →
        (if m = 0 then gc.FIRST_SEGMENT_GAP else gc.BODY_SEGMENT_SPACING) - r +
          ((n : ℚ) - (m : ℚ) - 1) * gc.BODY_SEGMENT_SPACING ≤
          arcLen M prev rest) →
      calcOuter M gc (n : ℚ) rest prev r m acc =
        acc ++ (List.range (n - m)).map (fun (j : ℕ) =>
          pointAtArc M prev rest
            ((if m = 0 then gc.FIRST_SEGMENT_GAP else gc.BODY_SEGMENT_SPACING) -
              r + (j : ℚ) * gc.BODY_SEGMENT_SPACING)) := by
  induction rest with
  | nil =>
    intro prev r m acc hm hr0 hr hgaps harc
    have hmn : m = n := by
      by_contra hne
      have hlt : m < n := lt_of_le_of_ne hm hne
      have h := harc hlt
      have harc0 : arcLen M prev [] = 0 := rfl
      rw [harc0] at h
      have h1 : 0 <
          (if m = 0 then gc.FIRST_SEGMENT_GAP else gc.BODY_SEGMENT_SPACING) - r :=
        sub_pos.mpr hr
      have hcast : (m : ℚ) + 1 ≤ (n : ℚ) := by exact_mod_cast hlt
      have h2 : 0 ≤ ((n : ℚ) - (m : ℚ) - 1) * gc.BODY_SEGMENT_SPACING :=
        mul_nonneg (by linarith) hsp.le
      linarith
    subst hmn
    simp [calcOuter]
  | cons curr rs ih =>
    intro prev r m acc hm hr0 hr hgaps harc
    rcases lt_or_eq_of_le hm with hlt | heq
    · obtain ⟨⟨hL0, hLsp⟩, hgaps'⟩ := hgaps
      have hseg : M.sqrt ((prev.x - curr.x) * (prev.x - curr.x) +
          (prev.y - curr.y) * (prev.y - curr.y)) = segLen M prev curr := rfl
      have hmlt : ((m : ℕ) : ℚ) < ((n : ℕ) : ℚ) := by exact_mod_cast hlt
      have hspreq : gc.BODY_SEGMENT_SPACING ≤
          (if m = 0 then gc.FIRST_SEGMENT_GAP else gc.BODY_SEGMENT_SPACING) := by
        by_cases hm0 : m = 0
        · rw [if_pos hm0]; exact hfg
        · rw [if_neg hm0]
      rw [calcOuter]
      rw [if_pos hmlt]
      dsimp only
      rw [hseg]
      have harcc : arcLen M prev (curr :: rs) =
          segLen M prev curr + arcLen M curr rs := rfl
      by_cases hemit :
          (if m = 0 then gc.FIRST_SEGMENT_GAP else gc.BODY_SEGMENT_SPACING) ≤
            r + segLen M prev curr
      · -- one emission in this interval
        have hno2 : ¬ (if m = 0 then gc.FIRST_SEGMENT_GAP
            else gc.BODY_SEGMENT_SPACING) ≤
            (r + segLen M prev curr) -
              (if m = 0 then gc.FIRST_SEGMENT_GAP
               else gc.BODY_SEGMENT_SPACING) := by
          push_neg
          linarith
        rw [calcInner_once curr _ _ _ _ _ _ m acc hemit hmlt hno2]
        dsimp only
        have hr0' : 0 ≤ r + segLen M prev curr -
            (if m = 0 then gc.FIRST_SEGMENT_GAP
             else gc.BODY_SEGMENT_SPACING) := by linarith
        have hr' : r + segLen M prev curr -
            (if m = 0 then gc.FIRST_SEGMENT_GAP
             else gc.BODY_SEGMENT_SPACING) <
            (if m + 1 = 0 then gc.FIRST_SEGMENT_GAP
             else gc.BODY_SEGMENT_SPACING) := by
          rw [if_neg (Nat.succ_ne_zero m)]
          linarith
        have harc' : m + 1 < n →
            (if m + 1 = 0 then gc.FIRST_SEGMENT_GAP
             else gc.BODY_SEGMENT_SPACING) -
              (r + segLen M prev curr -
                (if m = 0 then gc.FIRST_SEGMENT_GAP
                 else gc.BODY_SEGMENT_SPACING)) +
              ((n : ℚ) - ((m + 1 : ℕ) : ℚ) - 1) * gc.BODY_SEGMENT_SPACING ≤
              arcLen M curr rs := by
          intro hlt'
          have h := harc hlt
          rw [harcc] at h
          rw [if_neg (Nat.succ_ne_zero m)]
          push_cast
          linarith
        rw [ih curr _ (m + 1) _ hlt hr0' hr' hgaps' harc']
        have hnm : n - m = (n - (m + 1)) + 1 := by omega
        rw [hnm, List.range_succ_eq_map, List.map_cons, List.map_map]
        rw [List.append_assoc]
        congr 1
        rw [List.singleton_append]
        congr 1
        · -- the emitted point is the point at depth req - r
          have hcc : (if m = 0 then gc.FIRST_SEGMENT_GAP
              else gc.BODY_SEGMENT_SPACING) - r + ((0 : ℕ) : ℚ) *
                gc.BODY_SEGMENT_SPACING ≤ segLen M prev curr := by
            push_cast
            linarith
          rw [pointAtArc_here M prev curr rs _ hcc]
          have harg : segLen M prev curr -
              ((if m = 0 then gc.FIRST_SEGMENT_GAP
                else gc.BODY_SEGMENT_SPACING) - r + ((0 : ℕ) : ℚ) *
                  gc.BODY_SEGMENT_SPACING) =
              r + segLen M prev curr -
                (if m = 0 then gc.FIRST_SEGMENT_GAP
                 else gc.BODY_SEGMENT_SPACING) := by
            push_cast
            ring
          rw [harg]
        · -- remaining points step through this interval
          have hfun : ∀ j : ℕ,
              pointAtArc M prev (curr :: rs)
                ((if m = 0 then gc.FIRST_SEGMENT_GAP
                  else gc.BODY_SEGMENT_SPACING) - r +
                  ((Nat.succ j : ℕ) : ℚ) * gc.BODY_SEGMENT_SPACING) =
              pointAtArc M curr rs
                ((if m + 1 = 0 then gc.FIRST_SEGMENT_GAP
                  else gc.BODY_SEGMENT_SPACING) -
                  (r + segLen M prev curr -
                    (if m = 0 then gc.FIRST_SEGMENT_GAP
                     else gc.BODY_SEGMENT_SPACING)) +
                  (j : ℚ) * gc.BODY_SEGMENT_SPACING) := by
            intro j
            rw [pointAtArc_step M prev curr rs _ (by
              push_neg
              have hj0 : 0 ≤ (j : ℚ) * gc.BODY_SEGMENT_SPACING :=
                mul_nonneg (Nat.cast_nonneg j) hsp.le
              push_cast
              nlinarith)]
            rw [if_neg (Nat.succ_ne_zero m)]
            congr 1
            push_cast
            ring
          apply List.map_congr_left
          intro j hj
          exact (hfun j).symm
      · -- no emission in this interval
        rw [calcInner_stop curr _ _ _ _ _ _ m acc (fun hh => hemit hh.1)]
        dsimp only
        push_neg at hemit
        have hr' : r + segLen M prev curr <
            (if m = 0 then gc.FIRST_SEGMENT_GAP
             else gc.BODY_SEGMENT_SPACING) := hemit
        have harc' : m < n →
            (if m = 0 then gc.FIRST_SEGMENT_GAP
             else gc.BODY_SEGMENT_SPACING) - (r + segLen M prev curr) +
              ((n : ℚ) - (m : ℚ) - 1) * gc.BODY_SEGMENT_SPACING ≤
              arcLen M curr rs := by
          intro hlt'
          have h := harc hlt
          rw [harcc] at h
          linarith
        rw [ih curr _ m _ hm (by linarith) hr' hgaps' harc']
        congr 1
        have hfun : ∀ j : ℕ,
            pointAtArc M prev (curr :: rs)
              ((if m = 0 then gc.FIRST_SEGMENT_GAP
                else gc.BODY_SEGMENT_SPACING) - r +
                (j : ℚ) * gc.BODY_SEGMENT_SPACING) =
            pointAtArc M curr rs
              ((if m = 0 then gc.FIRST_SEGMENT_GAP
                else gc.BODY_SEGMENT_SPACING) - (r + segLen M prev curr) +
                (j : ℚ) * gc.BODY_SEGMENT_SPACING) := by
          intro j
          rw [pointAtArc_step M prev curr rs _ (by
            push_neg
            have hj0 : 0 ≤ (j : ℚ) * gc.BODY_SEGMENT_SPACING :=
              mul_nonneg (Nat.cast_nonneg j) hsp.le
            linarith)]
          congr 1
          ring
        apply List.map_congr_left
        intro j hj
        exact (hfun j).symm
    · subst heq
      rw [calcOuter]
      rw [if_neg (lt_irrefl _)]
      simp

/-- C2 (amended).  For an alive player whose history is finely sampled
(every interval no longer than `BODY_SEGMENT_SPACING`, interval lengths
nonnegative, `0 < spacing ≤ firstGap`), whose effective length
`min(bodySegments.length + 1, targetLength)` is the natural number `n`,
and whose history spans arc length at least
`firstGap + (n-1) * segmentSpacing`, `calculateBodySegments` emits exactly
`n` segments and the `m`-th lies at arc depth `firstGap + m * spacing`
behind the head along the history polyline.  (On coarser histories the
sampler's per-interval stale `requiredSpacing` breaks the claimed spacing —
see the counterexample.) -/
theorem C2_segment_sampling (M : JsMath) (gc : GameConstants)
    (player : ServerPlayerState) (n : ℕ) (h0 h1 : PositionRecord)
    (rest : List PositionRecord)
    (halive : player.alive = true)
    (hhist : player.positionHistory = h0 :: h1 :: rest)
    (hsp : 0 < gc.BODY_SEGMENT_SPACING)
    (hfg : gc.BODY_SEGMENT_SPACING ≤ gc.FIRST_SEGMENT_GAP)
    (hn : min (((player.bodySegments.length : ℕ) : ℚ) + 1)
      player.targetLength = (n : ℚ))
    (hgaps : gapsBounded M gc.BODY_SEGMENT_SPACING h0 (h1 :: rest))
    (harc : 0 < n →
      gc.FIRST_SEGMENT_GAP + ((n : ℚ) - 1) * gc.BODY_SEGMENT_SPACING ≤
        arcLen M h0 (h1 :: rest)) :
    calculateBodySegments M gc player =
      (List.range n).map (fun (m : ℕ) =>
        pointAtArc M h0 (h1 :: rest)
          (gc.FIRST_SEGMENT_GAP + (m : ℚ) * gc.BODY_SEGMENT_SPACING)) := by
  unfold calculateBodySegments
  rw [halive]
  rw [if_neg (show ¬ (true = false) by simp)]
  rw [hhist]
  dsimp only
  rw [hn]
  have hr0 : (0 : ℚ) <
      (if (0 : ℕ) = 0 then gc.FIRST_SEGMENT_GAP
       else gc.BODY_SEGMENT_SPACING) := by
    rw [if_pos rfl]
    linarith
  have harc' : (0 : ℕ) < n →
      (if (0 : ℕ) = 0 then gc.FIRST_SEGMENT_GAP
       else gc.BODY_SEGMENT_SPACING) - 0 +
        ((n : ℚ) - ((0 : ℕ) : ℚ) - 1) * gc.BODY_SEGMENT_SPACING ≤
        arcLen M h0 (h1 :: rest) := by
    intro h
    have := harc h
    rw [if_pos rfl]
    push_cast
    linarith
  rw [calcOuter_fine_spec M gc n hsp hfg (h1 :: rest) h0 0 0 []
    (Nat.zero_le n) le_rfl hr0 hgaps harc']
  rw [List.nil_append, Nat.sub_zero]
  apply List.map_congr_left
  intro j hj
  congr 1
  rw [if_pos rfl]
  ring

/-- Two body segments, target 3, and a COARSELY sampled history: one single
interval of length 130. -/
def c2Player : ServerPlayerState :=
  { basePlayer with
    bodySegments := [⟨0, 0⟩, ⟨0, 0⟩],
    targetLength := 3,
    positionHistory := [⟨130, 0, 0⟩, ⟨0, 0, 0⟩] }

theorem C2_counterexample :
    calculateBodySegments qMath GAME_CONSTANTS c2Player =
      [⟨95, 0⟩, ⟨60, 0⟩, ⟨25, 0⟩] ∧
    min (((c2Player.bodySegments.length : ℕ) : ℚ) + 1) c2Player.targetLength = 3 ∧
    arcLen qMath ⟨130, 0, 0⟩ [⟨0, 0, 0⟩] = 130 ∧
    GAME_CONSTANTS.FIRST_SEGMENT_GAP +
      (3 - 1) * GAME_CONSTANTS.BODY_SEGMENT_SPACING ≤ (130 : ℚ) ∧
    (95 : ℚ) - 60 ≠ GAME_CONSTANTS.BODY_SEGMENT_SPACING := by
  have i1 : calcInner (⟨0, 0, 0⟩ : PositionRecord) 130 0 130 35 3 130 0 [] =
      (25, 3, [⟨95, 0⟩, ⟨60, 0⟩, ⟨25, 0⟩]) := by
    rw [calcInner]
    norm_num
    rw [calcInner]
    norm_num
    rw [calcInner]
    norm_num
    rw [calcInner]
    norm_num
  refine ⟨?_, ?_, ?_, ?_, ?_⟩
  · have e0 : calculateBodySegments qMath GAME_CONSTANTS c2Player =
        calcOuter qMath GAME_CONSTANTS 3 [⟨0, 0, 0⟩] ⟨130, 0, 0⟩ 0 0 [] := by
      norm_num [calculateBodySegments, c2Player, basePlayer]
    rw [e0]
    rw [calcOuter]
    rw [if_pos (show (((0 : ℕ) : ℚ)) < 3 by norm_num)]
    dsimp only
    norm_num [qMath, qSqrt, GAME_CONSTANTS, i1]
    rw [calcOuter]
  · norm_num [c2Player, basePlayer]
  · norm_num [arcLen, segLen, qMath, qSqrt]
  · norm_num [GAME_CONSTANTS]
  · norm_num [GAME_CONSTANTS]

/-- One body segment, target 2, and a FINELY sampled history: six intervals
of length 10 each. -/
def c2wPlayer : ServerPlayerState :=
  { basePlayer with
    bodySegments := [⟨0, 0⟩],
    targetLength := 2,
    positionHistory := [⟨60, 0, 0⟩, ⟨50, 0, 0⟩, ⟨40, 0, 0⟩, ⟨30, 0, 0⟩,
      ⟨20, 0, 0⟩, ⟨10, 0, 0⟩, ⟨0, 0, 0⟩] }

theorem C2_witness :
    calculateBodySegments qMath GAME_CONSTANTS c2wPlayer = [⟨25, 0⟩, ⟨3, 0⟩] := by
  have h := C2_segment_sampling qMath GAME_CONSTANTS c2wPlayer 2
    ⟨60, 0, 0⟩ ⟨50, 0, 0⟩
    [⟨40, 0, 0⟩, ⟨30, 0, 0⟩, ⟨20, 0, 0⟩, ⟨10, 0, 0⟩, ⟨0, 0, 0⟩]
    rfl rfl
    (by norm_num [GAME_CONSTANTS])
    (by norm_num [GAME_CONSTANTS])
    (by norm_num [c2wPlayer, basePlayer])
    (by norm_num [gapsBounded, segLen, qMath, qSqrt, GAME_CONSTANTS])
    (by
      intro h'
      norm_num [arcLen, segLen, qMath, qSqrt, GAME_CONSTANTS])
  rw [h]
  norm_num [pointAtArc, segLen, qMath, qSqrt, GAME_CONSTANTS,
    List.range_succ, List.range_zero]

/-! ## C3: per-tick body growth bound -/

theorem updatePlayerMovement_bodySegments (M : JsMath) (gc : GameConstants)
    (p : ServerPlayerState) (deltaS : ℚ) :
    (updatePlayerMovement M gc p deltaS).bodySegments = p.bodySegments := by
  unfold updatePlayerMovement
  split
  · rfl
  · dsimp only
    split <;> rfl

theorem updatePlayerMovement_id (M : JsMath) (gc : GameConstants)
    (p : ServerPlayerState) (deltaS : ℚ) :
    (updatePlayerMovement M gc p deltaS).id = p.id := by
  unfold updatePlayerMovement
  split
  · rfl
  · dsimp only
    split <;> rfl

theorem updatePositionHistory_bodySegments (gc : GameConstants)
    (p : ServerPlayerState) (now : ℚ) :
    (updatePositionHistory gc p now).bodySegments = p.bodySegments := by
  unfold updatePositionHistory
  split <;> rfl

theorem updatePositionHistory_id (gc : GameConstants)
    (p : ServerPlayerState) (now : ℚ) :
    (updatePositionHistory gc p now).id = p.id := by
  unfold updatePositionHistory
  split <;> rfl

theorem boostDropLoop_players (gc : GameConstants) (room : GameRoom)
    (player : ServerPlayerState) (rand : List ℚ) :
    (boostDropLoop gc room player rand).1.players = room.players := by
  induction room, player, rand using boostDropLoop.induct gc with
  | case1 room player rand h p1 tail hlast r1 r2 res ih =>
    rw [boostDropLoop, dif_pos h]
    dsimp only
    rw [hlast]
    dsimp only
    rw [ih]
    exact spawnFoodInRoom_players gc room _ _ _ _
  | case2 room player rand h p1 hlast ih =>
    rw [boostDropLoop, dif_pos h]
    dsimp only
    rw [hlast]
    exact ih
  | case3 room player rand h =>
    rw [boostDropLoop, dif_neg h]

theorem boostDropLoop_bodySegments (gc : GameConstants) (room : GameRoom)
    (player : ServerPlayerState) (rand : List ℚ) :
    (boostDropLoop gc room player rand).2.1.bodySegments = player.bodySegments := by
  induction room, player, rand using boostDropLoop.induct gc with
  | case1 room player rand h p1 tail hlast r1 r2 res ih =>
    rw [boostDropLoop, dif_pos h]
    dsimp only
    rw [hlast]
    dsimp only
    exact ih
  | case2 room player rand h p1 hlast ih =>
    rw [boostDropLoop, dif_pos h]
    dsimp only
    rw [hlast]
    exact ih
  | case3 room player rand h =>
    rw [boostDropLoop, dif_neg h]

theorem killPlayerInRoom_len_bound (M : JsMath) (gc : GameConstants)
    (room : GameRoom) (pid : String) (cause : DeathCause) (kid : Option String)
    (now : ℚ) (rand : List ℚ) (B : ℕ)
    (h : ∀ q ∈ room.players, q.bodySegments.length ≤ B) :
    ∀ q ∈ (killPlayerInRoom M gc room pid cause kid now rand).1.players,
      q.bodySegments.length ≤ B := by
  intro q hq
  cases hget : room.getPlayer pid with
  | none =>
    rw [killPlayerInRoom_absent_noop M gc room pid cause kid now rand hget] at hq
    exact h q hq
  | some victim =>
    by_cases hal : victim.alive = true
    · rw [killPlayerInRoom_players_eq M gc room pid cause kid now rand victim
        hget hal] at hq
      obtain ⟨q0, hq0, hfq⟩ := List.mem_map.mp hq
      subst hfq
      split
      · exact Nat.zero_le B
      · split <;> try split
        all_goals exact h q0 hq0
    · rw [killPlayerInRoom_dead_noop M gc room pid cause kid now rand victim hget
        (by simpa using hal)] at hq
      exact h q hq

theorem checkPlayerCollisionsInRoom_len_bound (M : JsMath) (gc : GameConstants)
    (room : GameRoom) (now : ℚ) (rand : List ℚ) (B : ℕ)
    (h : ∀ q ∈ room.players, q.bodySegments.length ≤ B) :
    ∀ q ∈ (checkPlayerCollisionsInRoom M gc room now rand).1.players,
      q.bodySegments.length ≤ B := by
  unfold checkPlayerCollisionsInRoom
  dsimp only
  refine foldl_inv _
    (fun (acc : GameRoom × List ℚ × List GameEvent) =>
      ∀ q ∈ acc.1.players, q.bodySegments.length ≤ B) _
    (fun acc d hp => ?_) _ h
  obtain ⟨r, rs, es⟩ := acc
  dsimp only
  exact killPlayerInRoom_len_bound M gc r d.playerId d.cause d.killerId now rs B hp

theorem checkFoodPlayer_len_bound (M : JsMath) (gc : GameConstants)
    (room : GameRoom) (player : ServerPlayerState) (B : ℕ)
    (h : ∀ q ∈ room.players, q.bodySegments.length ≤ B) :
    ∀ q ∈ (checkFoodPlayer M gc room player).1.players,
      q.bodySegments.length ≤ B := by
  unfold checkFoodPlayer
  dsimp only
  intro q hq
  simp only [GameRoom.updatePlayer] at hq
  obtain ⟨q0, hq0, hfq⟩ := List.mem_map.mp hq
  subst hfq
  by_cases h1 : q0.id = player.id
  · simp only [h1, if_true]
    exact h q0 hq0
  · simp only [h1, if_false]
    exact h q0 hq0

theorem checkFoodCollisionsInRoom_len_bound (M : JsMath) (gc : GameConstants)
    (room : GameRoom) (B : ℕ)
    (h : ∀ q ∈ room.players, q.bodySegments.length ≤ B) :
    ∀ q ∈ (checkFoodCollisionsInRoom M gc room).1.players,
      q.bodySegments.length ≤ B := by
  unfold checkFoodCollisionsInRoom
  refine foldl_inv _
    (fun (acc : GameRoom × List GameEvent) =>
      ∀ q ∈ acc.1.players, q.bodySegments.length ≤ B) _
    (fun acc pid hp => ?_) _ h
  obtain ⟨r, es⟩ := acc
  dsimp only
  cases hg : r.getPlayer pid with
  | none => exact hp
  | some player =>
    by_cases hal : player.alive = false
    · simp only [hal, if_true]
      exact hp
    · simp only [hal, if_false]
      exact checkFoodPlayer_len_bound M gc r player B hp

theorem getPlayer_singleton (room : GameRoom) (p : ServerPlayerState)
    (hpl : room.players = [p]) : room.getPlayer p.id = some p := by
  rw [GameRoom.getPlayer, hpl]
  simp [List.find?]

theorem checkRespawns_single (M : JsMath) (gc : GameConstants) (room : GameRoom)
    (p : ServerPlayerState) (now : ℚ) (rand : List ℚ)
    (hpl : room.players = [p]) :
    ∃ p1, (checkRespawnsInRoom M gc room now rand).1.players = [p1] ∧
      p1.bodySegments.length ≤ p.bodySegments.length := by
  unfold checkRespawnsInRoom
  rw [hpl]
  simp only [List.map_cons, List.map_nil, List.foldl_cons, List.foldl_nil]
  rw [getPlayer_singleton room p hpl]
  dsimp only
  split
  · refine ⟨(respawnPlayer M gc p now rand).1, ?_, ?_⟩
    · simp [GameRoom.updatePlayer, hpl]
    · have : (respawnPlayer M gc p now rand).1.bodySegments = [] := rfl
      rw [this]
      exact Nat.zero_le _
  · exact ⟨p, hpl, le_refl _⟩

theorem handleBoostDrop_single (gc : GameConstants) (room : GameRoom)
    (p : ServerPlayerState) (deltaS : ℚ) (rand : List ℚ)
    (hpl : room.players = [p]) :
    ∃ p2, (handleBoostDropInRoom gc room p.id deltaS rand).1.players = [p2] ∧
      p2.bodySegments = p.bodySegments := by
  unfold handleBoostDropInRoom
  rw [getPlayer_singleton room p hpl]
  dsimp only
  split
  · exact ⟨p, hpl, rfl⟩
  · split
    · exact ⟨p, hpl, rfl⟩
    · refine ⟨(boostDropLoop gc room
        { p with boostDropAccumulator :=
            p.boostDropAccumulator + gc.BOOST_DROP_RATE * deltaS } rand).2.1,
        ?_, ?_⟩
      · dsimp only
        simp only [GameRoom.updatePlayer, boostDropLoop_players, hpl]
        simp
      · exact boostDropLoop_bodySegments gc room _ rand

theorem playerUpdatePhase_single (M : JsMath) (gc : GameConstants)
    (room : GameRoom) (p : ServerPlayerState) (deltaS now : ℚ) (rand : List ℚ)
    (hpl : room.players = [p]) :
    ∃ p2, (playerUpdatePhase M gc room deltaS now rand).1.players = [p2] ∧
      p2.bodySegments.length ≤ p.bodySegments.length + 1 := by
  unfold playerUpdatePhase
  rw [hpl]
  simp only [List.map_cons, List.map_nil, List.foldl_cons, List.foldl_nil]
  rw [getPlayer_singleton room p hpl]
  dsimp only
  split
  · exact ⟨p, hpl, Nat.le_succ _⟩
  · have hid : ({ updatePositionHistory gc (updatePlayerMovement M gc p deltaS) now with
        bodySegments := calculateBodySegments M gc
          (updatePositionHistory gc (updatePlayerMovement M gc p deltaS) now) } :
        ServerPlayerState).id = p.id := by
      show (updatePositionHistory gc (updatePlayerMovement M gc p deltaS) now).id = p.id
      rw [updatePositionHistory_id, updatePlayerMovement_id]
    obtain ⟨p2, h2, hseg⟩ := handleBoostDrop_single gc
      (room.updatePlayer p.id (fun _ =>
        { updatePositionHistory gc (updatePlayerMovement M gc p deltaS) now with
          bodySegments := calculateBodySegments M gc
            (updatePositionHistory gc (updatePlayerMovement M gc p deltaS) now) }))
      ({ updatePositionHistory gc (updatePlayerMovement M gc p deltaS) now with
         bodySegments := calculateBodySegments M gc
           (updatePositionHistory gc (updatePlayerMovement M gc p deltaS) now) })
      deltaS rand (by simp [GameRoom.updatePlayer, hpl])
    rw [hid] at h2
    refine ⟨p2, h2, ?_⟩
    rw [hseg]
    show (calculateBodySegments M gc
      (updatePositionHistory gc (updatePlayerMovement M gc p deltaS) now)).length ≤
      p.bodySegments.length + 1
    have hg := calculateBodySegments_growth M gc
      (updatePositionHistory gc (updatePlayerMovement M gc p deltaS) now)
    rw [updatePositionHistory_bodySegments, updatePlayerMovement_bodySegments] at hg
    exact hg

/-- C3 (amended).  In a room holding one player `p`, one tick of the game
loop never grows the body by more than one segment: every player left in
the room ends the tick with at most `p.bodySegments.length + 1` segments,
regardless of how much `targetLength` changes inside the tick (food,
boost drop).  The symmetric lower bound of the original claim is false:
a death inside the tick clears the whole body at once (counterexample). -/
theorem C3_tick_growth (M : JsMath) (gc : GameConstants) (rid : String)
    (p : ServerPlayerState) (food : List Hitodama) (tick ctr : ℕ)
    (now : ℚ) (rand : List ℚ) :
    ∀ q ∈ (roomTick M gc ⟨rid, [p], food, tick, ctr⟩ now rand).1.players,
      q.bodySegments.length ≤ p.bodySegments.length + 1 := by
  unfold roomTick
  dsimp only
  intro q hq
  rw [maintainFoodCountInRoom_players] at hq
  have hq2 := checkFoodCollisionsInRoom_len_bound M gc _
    (p.bodySegments.length + 1) ?hmag q hq
  · exact hq2
  case hmag =>
    rw [updateFoodMagnetismInRoom_players]
    refine checkPlayerCollisionsInRoom_len_bound M gc _ now _
      (p.bodySegments.length + 1) ?_
    obtain ⟨p1, h1, l1⟩ := checkRespawns_single M gc
      ({ (⟨rid, [p], food, tick, ctr⟩ : GameRoom) with
        currentTick := (⟨rid, [p], food, tick, ctr⟩ : GameRoom).currentTick + 1 })
      p now rand rfl
    obtain ⟨p2, h2, l2⟩ := playerUpdatePhase_single M gc _ p1
      (1000 / TICK_RATE / 1000) now _ h1
    rw [h2]
    intro q' hq'
    simp only [List.mem_singleton] at hq'
    subst hq'
    omega

/-- A dead idle player (no pending respawn) for the C3 witness. -/
def c3wPlayer : ServerPlayerState :=
  { basePlayer with
    alive := false }

theorem C3_witness :
    c3wPlayer ∈ (roomTick qMath GAME_CONSTANTS ⟨"room-1", [c3wPlayer], [], 0, 0⟩
      100000 []).1.players ∧
    c3wPlayer.bodySegments.length ≤ c3wPlayer.bodySegments.length + 1 := by
  have h0 : ({ (⟨"room-1", [c3wPlayer], [], 0, 0⟩ : GameRoom) with
      currentTick := (⟨"room-1", [c3wPlayer], [], 0, 0⟩ : GameRoom).currentTick + 1 } :
      GameRoom) = ⟨"room-1", [c3wPlayer], [], 1, 0⟩ := rfl
  have hR : checkRespawnsInRoom qMath GAME_CONSTANTS
      ⟨"room-1", [c3wPlayer], [], 1, 0⟩ 100000 [] =
      (⟨"room-1", [c3wPlayer], [], 1, 0⟩, [], []) := by
    norm_num [checkRespawnsInRoom, GameRoom.getPlayer, c3wPlayer, basePlayer]
  have hP : playerUpdatePhase qMath GAME_CONSTANTS
      ⟨"room-1", [c3wPlayer], [], 1, 0⟩ (1000 / TICK_RATE / 1000) 100000 [] =
      (⟨"room-1", [c3wPlayer], [], 1, 0⟩, []) := by
    norm_num [playerUpdatePhase, GameRoom.getPlayer, c3wPlayer, basePlayer]
  have hC : checkPlayerCollisionsInRoom qMath GAME_CONSTANTS
      ⟨"room-1", [c3wPlayer], [], 1, 0⟩ 100000 [] =
      (⟨"room-1", [c3wPlayer], [], 1, 0⟩, [], []) := by
    norm_num [checkPlayerCollisionsInRoom, collectCollisionDeaths, c3wPlayer,
      basePlayer, List.filter]
  have hM : updateFoodMagnetismInRoom qMath GAME_CONSTANTS
      ⟨"room-1", [c3wPlayer], [], 1, 0⟩ (1000 / TICK_RATE / 1000) =
      ⟨"room-1", [c3wPlayer], [], 1, 0⟩ := by
    norm_num [updateFoodMagnetismInRoom]
  have hF : checkFoodCollisionsInRoom qMath GAME_CONSTANTS
      ⟨"room-1", [c3wPlayer], [], 1, 0⟩ =
      (⟨"room-1", [c3wPlayer], [], 1, 0⟩, []) := by
    norm_num [checkFoodCollisionsInRoom, GameRoom.getPlayer, c3wPlayer, basePlayer]
  have hmem : c3wPlayer ∈ (roomTick qMath GAME_CONSTANTS
      ⟨"room-1", [c3wPlayer], [], 0, 0⟩ 100000 []).1.players := by
    unfold roomTick
    rw [h0]
    dsimp only
    rw [hR]
    dsimp only
    rw [hP]
    dsimp only
    rw [hC]
    dsimp only
    rw [hM, hF]
    dsimp only
    rw [maintainFoodCountInRoom_players]
    simp
  exact ⟨hmem, C3_tick_growth qMath GAME_CONSTANTS "room-1" c3wPlayer [] 0 0
    100000 [] c3wPlayer hmem⟩

end Toro
